import Mathlib

/-!
Verification development for the property-aggregator ingestion pipeline.

The definitions below are a shallow embedding of the JavaScript sources:
`ScraperService` (price / bedroom extraction, retry wrapper, per-source
scraping with synthetic fallback, `scrapeAll` orchestration),
`AIProcessor` (`validateAndCleanData` and the merge step of
`processWithAI`), and `PropertyService.bulkCreateProperties` together with
the Joi `createPropertySchema` and `PropertyRepository.existsBySourceUrl`.

JavaScript idioms are made explicit:
`a || b` becomes a truthiness-aware choice (`jsOrS`, `jsOrQ`, ...),
`Math.random()`-derived draws become `Fin`-typed parameters supplied by the
caller, `undefined`/`null` become `Option.none`, a `NaN` number is
represented as `Option.none` in `Option ℚ` / `Option ℕ` results, and
thrown exceptions become `Except.error`.
-/

set_option maxRecDepth 8000

namespace PropAgg

/-- Truthiness of an optional JS string: `undefined`, `null` and `""` are falsy. -/
def truthyS : Option String → Bool
  | none => false
  | some s => s != ""

/-- JS `a || b` on string-valued fields (result may still be absent/falsy). -/
def jsOrS (a b : Option String) : Option String :=
  if truthyS a then a else b

/-- JS `a || d` on a string-valued field with a mandatory string default. -/
def jsOrSD (a : Option String) (d : String) : String :=
  match a with
  | some s => if s == "" then d else s
  | none => d

/-- Truthiness of an optional JS number: `undefined`, `null` and `0` are falsy.
(`none` also stands for `NaN`, which is falsy as well.) -/
def truthyQ : Option ℚ → Bool
  | none => false
  | some q => q != 0

/-- JS `a || b` on number-valued fields. -/
def jsOrQ (a b : Option ℚ) : Option ℚ :=
  if truthyQ a then a else b

/-- JS `a || d` on a number-valued field with a numeric default. -/
def jsOrQD (a : Option ℚ) (d : ℚ) : ℚ :=
  match a with
  | some q => if q == 0 then d else q
  | none => d

/-- JS `a || b` on array-valued fields: any array (even `[]`) is truthy. -/
def jsOrL (a : Option (List String)) (b : List String) : List String :=
  match a with
  | some l => l
  | none => b

/-- JS `Math.max` on rationals. -/
def jsMax (a b : ℚ) : ℚ := if a ≤ b then b else a

/-- JS `Math.min` on rationals. -/
def jsMin (a b : ℚ) : ℚ := if a ≤ b then a else b

/-- ASCII lower-casing of one character (`String.prototype.toLowerCase` on
the ASCII range; the inputs we model contain no non-ASCII letters). -/
def lowerChar (c : Char) : Char :=
  if 'A' ≤ c && c ≤ 'Z' then Char.ofNat (c.toNat + 32) else c

/-- ASCII lower-casing of a character list. -/
def lowerChars (l : List Char) : List Char := l.map lowerChar

/-- Does `needle` occur at the head of `hay`? -/
def leadMatch : List Char → List Char → Bool
  | [], _ => true
  | _ :: _, [] => false
  | a :: as, b :: bs => a == b && leadMatch as bs

/-- JS `String.prototype.includes`: does `needle` occur anywhere in `hay`? -/
def hasSub (needle : List Char) : List Char → Bool
  | [] => needle.isEmpty
  | c :: t => leadMatch needle (c :: t) || hasSub needle t

/-- Character class `[\d,]` of the price regex. -/
def isDigitOrComma (c : Char) : Bool := c.isDigit || c == ','

/-- First match of the regex `/[\d,]+/`: the leftmost maximal run of
digits-and-commas, or `none` when the string has no digit and no comma. -/
def firstRun : List Char → Option (List Char)
  | [] => none
  | c :: cs =>
    if isDigitOrComma c then some ((c :: cs).takeWhile isDigitOrComma)
    else firstRun cs

/-- Numeric value of a digit list. -/
def digitsVal (l : List Char) : ℕ :=
  l.foldl (fun n c => n * 10 + (c.toNat - '0'.toNat)) 0

/-- JS `parseInt` restricted to the call sites we model: the argument is a
run of digits (a digitless argument yields `NaN`, embedded as `none`). -/
def jsParseInt (cs : List Char) : Option ℕ :=
  let ds := cs.takeWhile Char.isDigit
  if ds.isEmpty then none else some (digitsVal ds)

/-- Value of the first `[\d,]+` run of a price string, with commas removed
before `parseInt` (`match[0].replace(/,/g, '')`); `none` when the regex
does not match or `parseInt` yields `NaN`. -/
def leadRunVal (s : String) : Option ℕ :=
  (firstRun s.data).bind (fun run => jsParseInt (run.filter (fun c => c != ',')))

/-- Crore marker test of `_extractPrice`: lower-cased string contains `"cr"`. -/
def hasCroreMarker (s : String) : Bool := hasSub "cr".data (lowerChars s.data)

/-- Lakh marker test of `_extractPrice`: lower-cased string contains `"lakh"`. -/
def hasLakhMarker (s : String) : Bool := hasSub "lakh".data (lowerChars s.data)

/-- Thousand marker test of `_extractPrice`: lower-cased string contains `"k"`. -/
def hasThousandMarker (s : String) : Bool := hasSub "k".data (lowerChars s.data)

/-- Currency-symbol test of `_extractPrice`: the string contains `'₹'`. -/
def hasRupeeSymbol (s : String) : Bool := hasSub "₹".data s.data

/-- String branch of `ScraperService._extractPrice`, in ℕ.  `rand` is the
already-drawn value of `Math.floor(Math.random() * 50000000) + 5000000`;
the result is `none` exactly when the JS code produces `NaN`. -/
def extractPriceStr (s : String) (rand : ℕ) : Option ℕ :=
  if s == "" then some rand
  else
    match firstRun s.data with
    | none => some rand
    | some run =>
      let number := jsParseInt (run.filter (fun c => c != ','))
      if hasCroreMarker s then number.map (· * 10000000)
      else if hasLakhMarker s then number.map (· * 100000)
      else if hasThousandMarker s then number.map (· * 1000)
      else if hasRupeeSymbol s then number.map (· * 100000)
      else
        match number with
        | some n => if n == 0 then some rand else some n
        | none => some rand

/-- Argument of `_extractPrice`: the JS value may be `undefined`, a number,
or a string. -/
inductive PriceIn where
  | undef : PriceIn
  | num : ℚ → PriceIn
  | str : String → PriceIn

/-- Embedding of `ScraperService._extractPrice` (identical in
`src/backend/src/services/ScraperService.js` and the unnamed scraper
variant).  `rand` is the drawn value of `Math.random() * 50000000`. -/
def extractPrice (p : PriceIn) (rand : Fin 50000000) : Option ℚ :=
  match p with
  | .undef => some ((5000000 + rand.val : ℕ) : ℚ)
  | .num q => if q == 0 then some ((5000000 + rand.val : ℕ) : ℚ) else some q
  | .str s => (extractPriceStr s (5000000 + rand.val)).map (fun n => (n : ℚ))

/-- One whitespace-or-more skip (`\s*` of the BHK regex). -/
def dropWs (l : List Char) : List Char := l.dropWhile Char.isWhitespace

/-- Does one of the bedroom tokens `bhk`/`bedroom`/`bed` start here
(case-insensitive)? -/
def bhkTokenHere (l : List Char) : Bool :=
  leadMatch "bhk".data (lowerChars l) || leadMatch "bedroom".data (lowerChars l) ||
    leadMatch "bed".data (lowerChars l)

/-- First match of `/(\d+)\s*(bhk|bedroom|bed)/i`: the first integer that is
followed (after optional whitespace) by a bedroom token; `none` when the
regex does not match. -/
def bhkScan : List Char → Option ℕ
  | [] => none
  | c :: cs =>
    if c.isDigit then
      let ds := (c :: cs).takeWhile Char.isDigit
      let rest := (c :: cs).dropWhile Char.isDigit
      if bhkTokenHere (dropWs rest) then some (digitsVal ds) else bhkScan cs
    else bhkScan cs

/-- Embedding of `ScraperService._extractBHK`.  `u` is the already-drawn
value of `Math.floor(Math.random() * 3)`, so the fallback result
`u.val + 1` ranges over `{1, 2, 3}`. -/
def extractBHK (text : Option String) (u : Fin 3) : ℕ :=
  match text with
  | none => u.val + 1
  | some t =>
    if t == "" then u.val + 1
    else
      match bhkScan t.data with
      | some n => n
      | none => u.val + 1

/-! ## Canonical records and the Joi `createPropertySchema` (PropertyDto) -/

/-- Joi's `.trim()` transform, on character lists (kernel-computable). -/
def trimChars (l : List Char) : List Char :=
  ((l.dropWhile Char.isWhitespace).reverse.dropWhile Char.isWhitespace).reverse

/-- Coordinates sub-object of the canonical schema. -/
structure Coordinates where
  latitude : Option ℚ
  longitude : Option ℚ
deriving DecidableEq

/-- Location sub-object of the canonical schema. -/
structure PLocation where
  city : Option String
  area : Option String
  fullAddress : Option String
  coordinates : Option Coordinates
deriving DecidableEq

/-- Area sub-object of the canonical schema. -/
structure PArea where
  size : Option ℚ
  unit : Option String
deriving DecidableEq

/-- Source sub-object of the canonical schema (`name`, `url`, `scrapedAt`). -/
structure PSource where
  name : Option String
  url : Option String
  scrapedAt : Option String
deriving DecidableEq

/-- Contact sub-object of the canonical schema. -/
structure PContact where
  phone : Option String
  email : Option String
  agent : Option String
deriving DecidableEq

/-- A property record as submitted to `PropertyService`: exactly the keys of
`PropertyDto.createPropertySchema`, every field optional (`none` stands for
a missing key; required-ness is enforced by validation, not by the type). -/
structure PRecord where
  title : Option String
  description : Option String
  price : Option ℚ
  priceType : Option String
  location : Option PLocation
  propertyType : Option String
  bhk : Option ℚ
  area : Option PArea
  amenities : Option (List String)
  images : Option (List String)
  source : Option PSource
  contact : Option PContact
  status : Option String
  confidence : Option ℚ
  tags : Option (List String)
  featured : Option Bool
deriving DecidableEq

/-- Environment for the parts of validation and persistence that live
outside the repository's own code: Joi's RFC-based `uri`/`email`/`date`
format checkers, and whether the document store's `create` call throws for
a given record (the per-record `try/catch` of `bulkCreateProperties`). -/
structure Ctx where
  isUri : String → Bool
  isEmail : String → Bool
  isDate : String → Bool
  createFails : PRecord → Bool

/-- Joi `string().trim().max(maxLen).required()`: present, non-empty after
trimming, and at most `maxLen` characters. -/
def strOkReq (maxLen : ℕ) : Option String → Bool
  | none => false
  | some s =>
    let t := trimChars s.data
    !t.isEmpty && decide (t.length ≤ maxLen)

/-- Joi `string().trim().max(maxLen).optional()`. -/
def strOkOpt (maxLen : ℕ) : Option String → Bool
  | none => true
  | some s =>
    let t := trimChars s.data
    !t.isEmpty && decide (t.length ≤ maxLen)

/-- Joi `string().valid(xs...)` on an optional field. -/
def inSetOpt (xs : List String) : Option String → Bool
  | none => true
  | some s => xs.contains s

/-- Joi `number().min(lo).required()`. -/
def numOkReq (lo : ℚ) : Option ℚ → Bool
  | none => false
  | some q => decide (lo ≤ q)

/-- Joi `number().min(lo).max(hi).optional()`. -/
def numRangeOpt (lo hi : ℚ) : Option ℚ → Bool
  | none => true
  | some q => decide (lo ≤ q) && decide (q ≤ hi)

/-- Character class of the Joi phone pattern `/^\+?[\d\s\-\(\)]+$/`. -/
def phoneChar (c : Char) : Bool :=
  c.isDigit || c.isWhitespace || c == '-' || c == '(' || c == ')'

/-- The Joi phone pattern `/^\+?[\d\s\-\(\)]+$/`. -/
def phoneOk (s : String) : Bool :=
  let cs := match s.data with
    | '+' :: t => t
    | l => l
  !cs.isEmpty && cs.all phoneChar

/-- Validation of the `location` sub-object of `createPropertySchema`. -/
def validLocation : Option PLocation → Bool
  | none => false
  | some l =>
    strOkReq 100 l.city && strOkOpt 100 l.area && strOkOpt 500 l.fullAddress &&
      (match l.coordinates with
       | none => true
       | some c => numRangeOpt (-90) 90 c.latitude && numRangeOpt (-180) 180 c.longitude)

/-- Validation of the `area` sub-object of `createPropertySchema`. -/
def validArea : Option PArea → Bool
  | none => false
  | some a => numOkReq 1 a.size && inSetOpt ["sqft", "sqm", "acres", "sqyd"] a.unit

/-- Validation of the `source` sub-object of `createPropertySchema`: the
name must be one of the five known source names, the url must be a
present, non-empty URI. -/
def validSource (ctx : Ctx) : Option PSource → Bool
  | none => false
  | some s =>
    (match s.name with
     | none => false
     | some n => ["Housing.com", "OLX", "MagicBricks", "Manual", "Other"].contains n) &&
    (match s.url with
     | none => false
     | some u => u != "" && ctx.isUri u) &&
    (match s.scrapedAt with
     | none => true
     | some d => ctx.isDate d)

/-- Validation of the `contact` sub-object of `createPropertySchema`. -/
def validContact (ctx : Ctx) : Option PContact → Bool
  | none => true
  | some c =>
    (match c.phone with
     | none => true
     | some p => phoneOk p) &&
    (match c.email with
     | none => true
     | some e => e != "" && ctx.isEmail e) &&
    strOkOpt 100 c.agent

/-- Embedding of `PropertyDto.createPropertySchema.validate`: `true` iff
validation reports no error. -/
def validateProperty (ctx : Ctx) (r : PRecord) : Bool :=
  strOkReq 200 r.title && strOkOpt 2000 r.description &&
  numOkReq 0 r.price && inSetOpt ["rent", "sale"] r.priceType &&
  validLocation r.location &&
  inSetOpt ["apartment", "house", "villa", "plot", "commercial", "penthouse", "studio", "other"]
    r.propertyType &&
  numRangeOpt 0 20 r.bhk && validArea r.area &&
  (match r.amenities with
   | none => true
   | some l => l.all (fun x => strOkReq 50 (some x))) &&
  (match r.images with
   | none => true
   | some l => l.all (fun x => x != "" && ctx.isUri x)) &&
  validSource ctx r.source && validContact ctx r.contact &&
  inSetOpt ["active", "sold", "rented", "inactive", "pending"] r.status &&
  numRangeOpt 0 1 r.confidence &&
  (match r.tags with
   | none => true
   | some l => l.all (fun x => strOkReq 30 (some x)))

/-! ## PropertyRepository / PropertyService: the batch reconciler -/

/-- Embedding of `PropertyRepository.existsBySourceUrl`: the persisted
store is the list of previously created records; the check is a count of
documents whose `source.url` equals the given url. -/
def existsBySourceUrl (u : String) (store : List PRecord) : Bool :=
  store.any (fun p =>
    match p.source with
    | some s => s.url == some u
    | none => false)

/-- The optional chain `propertyData.source?.url`. -/
def sourceUrlOf (r : PRecord) : Option String :=
  r.source.bind (fun s => s.url)

/-- The duplicate check of `bulkCreateProperties`:
`PropertyRepository.existsBySourceUrl(propertyData.source?.url)`.  For a
record with no source url the query carries an undefined url and matches
no stored document. -/
def existsCheck (r : PRecord) (store : List PRecord) : Bool :=
  match sourceUrlOf r with
  | some u => existsBySourceUrl u store
  | none => false

/-- Classification of one record by the batch reconciler. -/
inductive BulkOutcome where
  | created
  | duplicate
  | error
deriving DecidableEq

/-- Boolean test for the `created` classification. -/
def isCreated : BulkOutcome → Bool
  | .created => true
  | _ => false

/-- Boolean test for the `duplicate` classification. -/
def isDuplicate : BulkOutcome → Bool
  | .duplicate => true
  | _ => false

/-- Boolean test for the `error` classification. -/
def isError : BulkOutcome → Bool
  | .error => true
  | _ => false

/-- One loop iteration of `bulkCreateProperties`: duplicate check first,
then schema validation, then persistence (whose failure the per-record
`catch` turns into an error entry); only a successful `create` extends the
store. -/
def processOne (ctx : Ctx) (store : List PRecord) (r : PRecord) : BulkOutcome × List PRecord :=
  if existsCheck r store then (.duplicate, store)
  else if !validateProperty ctx r then (.error, store)
  else if ctx.createFails r then (.error, store)
  else (.created, store ++ [r])

/-- The `for (const propertyData of propertiesData)` loop: classifies every
record in order, threading the store. -/
def bulkGo (ctx : Ctx) : List PRecord → List PRecord → List BulkOutcome × List PRecord
  | [], store => ([], store)
  | r :: rs, store =>
    let (o, store') := processOne ctx store r
    let (os, store'') := bulkGo ctx rs store'
    (o :: os, store'')

/-- Aggregate stats of a bulk create (`result.stats`). -/
structure BulkStats where
  total : ℕ
  created : ℕ
  errors : ℕ
  duplicates : ℕ
deriving DecidableEq

/-- Result of a (non-throwing) bulk create: stats, the per-record
classifications in input order, and the store after the run. -/
structure BulkResult where
  stats : BulkStats
  outcomes : List BulkOutcome
  store : List PRecord
deriving DecidableEq

/-- The non-empty-input body of `bulkCreateProperties`: stats are the
lengths of the `created`/`errors`/`duplicates` result arrays. -/
def bulkRun (ctx : Ctx) (propertiesData : List PRecord) (store : List PRecord) : BulkResult :=
  let (os, store') := bulkGo ctx propertiesData store
  { stats :=
      { total := propertiesData.length
        created := (os.filter isCreated).length
        errors := (os.filter isError).length
        duplicates := (os.filter isDuplicate).length }
    outcomes := os
    store := store' }

/-- Embedding of `PropertyService.bulkCreateProperties`: an empty (or
non-array) input throws; otherwise every record is classified and the
result aggregates the counts. -/
def bulkCreateProperties (ctx : Ctx) (propertiesData : List PRecord) (store : List PRecord) :
    Except String BulkResult :=
  if propertiesData.isEmpty then Except.error "Properties data must be a non-empty array"
  else Except.ok (bulkRun ctx propertiesData store)

/-! ## ScraperService.scrapeAll: the orchestrator -/

/-- One entry of the `errors` array of the scrape response: either a
per-source failure `{source, error}` from a rejected pipeline, or a
per-record failure `{data, error}` from the bulk create. -/
inductive ErrEntry where
  | srcErr (source : String) (msg : String)
  | recErr (data : PRecord)
deriving DecidableEq

/-- Stats block of `PropertyDto.formatScraperResponse`. -/
structure ScrapeStats where
  scraped : ℕ
  saved : ℕ
  errors : ℕ
  duplicates : ℕ
deriving DecidableEq

/-- The scrape response (`formatScraperResponse`); `properties` is the list
of created records (their response projection is field-for-field and is
not modelled separately). -/
structure ScrapeResp where
  success : Bool
  message : String
  stats : ScrapeStats
  properties : List PRecord
  errors : List ErrEntry
deriving DecidableEq

/-- `Promise.allSettled` projection: a fulfilled pipeline contributes its
properties, a rejected one contributes nothing. -/
def settledProps (o : Except String (List PRecord)) : List PRecord :=
  match o with
  | .ok l => l
  | .error _ => []

/-- `Promise.allSettled` projection: a rejected pipeline contributes one
`{source, error}` entry. -/
def settledErr (name : String) (o : Except String (List PRecord)) : List ErrEntry :=
  match o with
  | .ok _ => []
  | .error e => [.srcErr name e]

/-- Records of `rs` classified `created` by outcome list `os` (the
`results.created` array, in push order). -/
def createdRecsOf (rs : List PRecord) (os : List BulkOutcome) : List PRecord :=
  ((rs.zip os).filter (fun p => isCreated p.2)).map (fun p => p.1)

/-- Records of `rs` classified `error` by outcome list `os` (the
`results.errors` array, in push order). -/
def errorRecsOf (rs : List PRecord) (os : List BulkOutcome) : List PRecord :=
  ((rs.zip os).filter (fun p => isError p.2)).map (fun p => p.1)

/-- The source names, in the order the three pipelines are launched. -/
def sourceNames : List String := ["Housing.com", "OLX", "MagicBricks"]

/-- Embedding of `ScraperService.scrapeAll` (unnamed scraper variant; the
`src/` variant inserts an AI pass before saving but has the same
control flow).  The three per-source pipeline outcomes are parameters,
since acquisition is external I/O; a rejected promise is an
`Except.error`.  The combined candidate list goes to
`bulkCreateProperties` once; if that throws (in particular on an empty
combined list) the surrounding `catch` re-throws
`Failed to scrape all sources: ...`. -/
def scrapeAll (ctx : Ctx) (city : String) (o1 o2 o3 : Except String (List PRecord))
    (store : List PRecord) : Except String (ScrapeResp × List PRecord) :=
  let allProperties := settledProps o1 ++ settledProps o2 ++ settledProps o3
  let srcErrors :=
    settledErr "Housing.com" o1 ++ settledErr "OLX" o2 ++ settledErr "MagicBricks" o3
  match bulkCreateProperties ctx allProperties store with
  | .error e => Except.error ("Failed to scrape all sources: " ++ e)
  | .ok res =>
    Except.ok
      ({ success := true
         message := "Scraping completed for " ++ city
         stats :=
           { scraped := allProperties.length
             saved := res.stats.created
             errors := res.stats.errors
             duplicates := res.stats.duplicates }
         properties := createdRecsOf allProperties res.outcomes
         errors := srcErrors ++ (errorRecsOf allProperties res.outcomes).map ErrEntry.recErr },
       res.store)

/-- The value `scrapeAll` returns when the bulk create does not throw
(spelled out for use in statements; definitionally the `.ok` branch of
`scrapeAll`). -/
def scrapeAllRun (ctx : Ctx) (city : String) (o1 o2 o3 : Except String (List PRecord))
    (store : List PRecord) : ScrapeResp × List PRecord :=
  let allProperties := settledProps o1 ++ settledProps o2 ++ settledProps o3
  let srcErrors :=
    settledErr "Housing.com" o1 ++ settledErr "OLX" o2 ++ settledErr "MagicBricks" o3
  let res := bulkRun ctx allProperties store
  ({ success := true
     message := "Scraping completed for " ++ city
     stats :=
       { scraped := allProperties.length
         saved := res.stats.created
         errors := res.stats.errors
         duplicates := res.stats.duplicates }
     properties := createdRecsOf allProperties res.outcomes
     errors := srcErrors ++ (errorRecsOf allProperties res.outcomes).map ErrEntry.recErr },
   res.store)

/-- Source names carried by the `{source, error}` entries of an error
list (used to state "exactly one error entry names the failed source"). -/
def srcErrSources (es : List ErrEntry) : List String :=
  es.filterMap (fun e =>
    match e with
    | .srcErr n _ => some n
    | .recErr _ => none)

/-! ## ScraperService._withRetry -/

/-- Result of a `_withRetry` run: a value, the last error, or — when
`tries = 0` — no call at all (the JS loop body never runs and the
function resolves with `undefined`). -/
inductive RetryResult (ε α : Type) where
  | ok (a : α)
  | err (e : ε)
  | noCall
deriving DecidableEq

/-- Observable trace of a `_withRetry` run: its outcome, the list of
back-off delays slept (in order), and the number of calls made to `fn`. -/
structure RetryRun (ε α : Type) where
  result : RetryResult ε α
  delays : List ℕ
  calls : ℕ
deriving DecidableEq

/-- The `while (attempt < tries)` loop of `_withRetry`.  `fn i` is the
outcome of the `i`-th call (0-indexed); `idx` is the index of the next
call and the fuel is the number of remaining allowed attempts.  After a
failed call the attempt counter is `idx + 1`, so the slept delay is
`baseTimeout * (idx + 1)`. -/
def withRetryGo (fn : ℕ → Except ε α) (base : ℕ) : ℕ → ℕ → RetryRun ε α
  | _, 0 => ⟨.noCall, [], 0⟩
  | idx, n + 1 =>
    match fn idx with
    | .ok a => ⟨.ok a, [], 1⟩
    | .error e =>
      if n = 0 then ⟨.err e, [], 1⟩
      else
        let r := withRetryGo fn base (idx + 1) n
        ⟨r.result, base * (idx + 1) :: r.delays, r.calls + 1⟩

/-- Embedding of `ScraperService._withRetry(fn, tries, baseTimeout)`. -/
def withRetry (fn : ℕ → Except ε α) (tries : ℕ) (baseTimeout : ℕ) : RetryRun ε α :=
  withRetryGo fn baseTimeout 0 tries

/-! ## Synthetic record generators and per-source scraping fallback -/

/-- Raw card data handed to a `_format*Property` helper: `title`, `price`,
`location`, `description`, `config`, `image`, `link`, each possibly
absent. -/
structure RawScraped where
  title : Option String
  price : Option String
  location : Option String
  description : Option String
  config : Option String
  image : Option String
  link : Option String
deriving DecidableEq

/-- Per-record draws consumed by a `_format*Property` helper:
`bhkDraw` for `_extractBHK`'s fallback, `priceDraw` for `_extractPrice`'s
fallback, `sizeDraw`/`phoneDraw` for the random area size and phone
suffix, and `now` for `new Date()`. -/
structure FormatRng where
  bhkDraw : Fin 3
  priceDraw : Fin 50000000
  sizeDraw : ℕ
  phoneDraw : ℕ
  now : String

/-- String concatenation `a + ' ' + b` where either side may be
`undefined` (JS stringifies a missing operand as `"undefined"`). -/
def jsConcatSp (a b : Option String) : String :=
  a.getD "undefined" ++ " " ++ b.getD "undefined"

/-- The `prop.price?.toLowerCase().includes('rent')` test. -/
def priceMentionsRent (price : Option String) : Bool :=
  match price with
  | some s => hasSub "rent".data (lowerChars s.data)
  | none => false

/-- Embedding of `ScraperService._formatHousingProperty`. -/
def formatHousingProperty (prop : RawScraped) (city : String) (index : ℕ)
    (g : FormatRng) : PRecord :=
  { title := prop.title
    description := some (jsOrSD prop.description
      ("Property available in " ++ jsOrSD prop.location city))
    price := extractPrice
      (match prop.price with
       | some s => .str s
       | none => .undef) g.priceDraw
    priceType := some (if priceMentionsRent prop.price then "rent" else "sale")
    location := some
      { city := some city
        area := some (jsOrSD prop.location "Central Area")
        fullAddress := some (jsOrSD prop.location (city ++ ", India"))
        coordinates := none }
    propertyType := some "apartment"
    bhk := some ((extractBHK (some (jsConcatSp prop.title prop.description)) g.bhkDraw : ℕ) : ℚ)
    area := some { size := some ((500 + g.sizeDraw : ℕ) : ℚ), unit := some "sqft" }
    amenities := some ["Parking", "Security"]
    images := some (if truthyS prop.image then [prop.image.getD ""]
      else ["https://images.unsplash.com/photo-1560448204-e02f11c3d0e2?w=400"])
    source := some
      { name := some "Housing.com"
        url := some (jsOrSD prop.link
          ("https://housing.com/property-" ++ String.mk (lowerChars city.data) ++ "-" ++
            toString (index + 1)))
        scrapedAt := some g.now }
    contact := some
      { phone := some ("+91-98765-" ++ toString (10000 + g.phoneDraw))
        email := none
        agent := some "Housing Agent" }
    status := some "active"
    confidence := some (8 / 10)
    tags := none
    featured := none }

/-- Embedding of `ScraperService._formatOLXProperty`. -/
def formatOLXProperty (prop : RawScraped) (city : String) (index : ℕ)
    (g : FormatRng) : PRecord :=
  { title := prop.title
    description := some ("Property listing from OLX in " ++ jsOrSD prop.location city)
    price := extractPrice
      (match prop.price with
       | some s => .str s
       | none => .undef) g.priceDraw
    priceType := some (if priceMentionsRent prop.price then "rent" else "sale")
    location := some
      { city := some city
        area := some (jsOrSD prop.location "City Area")
        fullAddress := some (jsOrSD prop.location (city ++ ", India"))
        coordinates := none }
    propertyType := some "apartment"
    bhk := some ((extractBHK prop.title g.bhkDraw : ℕ) : ℚ)
    area := some { size := some ((400 + g.sizeDraw : ℕ) : ℚ), unit := some "sqft" }
    amenities := some ["Parking"]
    images := some (if truthyS prop.image then [prop.image.getD ""]
      else ["https://images.unsplash.com/photo-1522708323590-d24dbb6b0267?w=400"])
    source := some
      { name := some "OLX"
        url := some (jsOrSD prop.link
          ("https://olx.in/property-" ++ String.mk (lowerChars city.data) ++ "-" ++
            toString (index + 1)))
        scrapedAt := some g.now }
    contact := some
      { phone := some ("+91-98765-" ++ toString (10000 + g.phoneDraw))
        email := none
        agent := some "OLX Seller" }
    status := some "active"
    confidence := some (7 / 10)
    tags := none
    featured := none }

/-- Embedding of `ScraperService._formatMagicBricksProperty`.  Note its
`url: prop.link` has no default. -/
def formatMagicBricksProperty (prop : RawScraped) (city : String) (_index : ℕ)
    (g : FormatRng) : PRecord :=
  { title := prop.title
    description := some ("Premium property listing from MagicBricks in " ++ city ++ ". " ++
      jsOrSD prop.config "")
    price := extractPrice
      (match prop.price with
       | some s => .str s
       | none => .undef) g.priceDraw
    priceType := some "sale"
    location := some
      { city := some city
        area := some (jsOrSD prop.location "Premium Area")
        fullAddress := some (jsOrSD prop.location ("Premium Area, " ++ city ++ ", India"))
        coordinates := none }
    propertyType := some "apartment"
    bhk := some ((extractBHK (some (jsConcatSp prop.title prop.config)) g.bhkDraw : ℕ) : ℚ)
    area := some { size := some ((800 + g.sizeDraw : ℕ) : ℚ), unit := some "sqft" }
    amenities := some ["Gym", "Pool", "Security", "Parking"]
    images := some (if truthyS prop.image then [prop.image.getD ""]
      else ["https://images.unsplash.com/photo-1600596542815-ffad4c1539a9?w=400"])
    source := some
      { name := some "MagicBricks"
        url := prop.link
        scrapedAt := some g.now }
    contact := some
      { phone := some ("+91-98765-" ++ toString (10000 + g.phoneDraw))
        email := none
        agent := some "MagicBricks Agent" }
    status := some "active"
    confidence := some (8 / 10)
    tags := none
    featured := none }

/-- Per-iteration draws of `_generateHousingFallbackData`: indices into the
8 areas, 5 property types and 5 bhk options, the 20–119 price range draw,
the format-level draws, and the drawn `uuidv4()`. -/
structure HousingDraw where
  areaPick : Fin 8
  typePick : Fin 5
  bhkPick : Fin 5
  pricePick : Fin 100
  fmt : FormatRng
  uuid : String

/-- Area names of the Housing.com generator. -/
def housingAreas : List String :=
  ["Central", "North", "South", "East", "West", "Downtown", "Suburbs", "Premium"]

/-- Property type names of the Housing.com generator. -/
def housingTypes : List String := ["Apartment", "Flat", "Villa", "Penthouse", "Studio"]

/-- BHK options of the Housing.com generator. -/
def housingBhkOptions : List ℕ := [1, 2, 3, 4, 5]

/-- Embedding of `ScraperService._generateHousingFallbackData`: one
formatted synthetic record per loop iteration `i < limit`. -/
def generateHousingFallbackData (city : String) (limit : ℕ)
    (draws : ℕ → HousingDraw) : List PRecord :=
  (List.range limit).map (fun i =>
    let d := draws i
    let area := housingAreas.getD d.areaPick.val ""
    let ptype := housingTypes.getD d.typePick.val ""
    let bhk := housingBhkOptions.getD d.bhkPick.val 0
    let priceRange := d.pricePick.val + 20
    formatHousingProperty
      { title := some (toString bhk ++ " BHK " ++ ptype ++ " for Sale in " ++ area ++ " " ++ city)
        price := some ("₹" ++ toString priceRange ++ " Lakh")
        location := some (area ++ " " ++ city)
        description := some ("Beautiful " ++ toString bhk ++ " BHK " ++
          String.mk (lowerChars ptype.data) ++ " in " ++ area ++ " " ++ city ++
          ". Modern amenities, great location, and excellent connectivity.")
        config := none
        image := some "https://images.unsplash.com/photo-1560448204-e02f11c3d0e2?w=400"
        link := some ("https://housing.com/property-" ++ String.mk (lowerChars city.data) ++
          "-" ++ toString (i + 1) ++ "-" ++ d.uuid) }
      city i d.fmt)

/-- Per-iteration draws of `_generateOLXFallbackData`. -/
structure OLXDraw where
  areaPick : Fin 7
  typePick : Fin 4
  bhkPick : Fin 4
  pricePick : Fin 50
  fmt : FormatRng
  uuid : String

/-- Area names of the OLX generator. -/
def olxAreas : List String :=
  ["Central", "North", "South", "East", "West", "Downtown", "Suburbs"]

/-- Property type names of the OLX generator. -/
def olxTypes : List String := ["Apartment", "Flat", "House", "Villa"]

/-- BHK options of the OLX generator. -/
def olxBhkOptions : List ℕ := [1, 2, 3, 4]

/-- Embedding of `ScraperService._generateOLXFallbackData`. -/
def generateOLXFallbackData (city : String) (limit : ℕ)
    (draws : ℕ → OLXDraw) : List PRecord :=
  (List.range limit).map (fun i =>
    let d := draws i
    let area := olxAreas.getD d.areaPick.val ""
    let ptype := olxTypes.getD d.typePick.val ""
    let bhk := olxBhkOptions.getD d.bhkPick.val 0
    let priceRange := d.pricePick.val + 10
    formatOLXProperty
      { title := some (toString bhk ++ " BHK " ++ ptype ++ " for Sale in " ++ area ++ " " ++ city)
        price := some ("₹" ++ toString priceRange ++ " Lakh")
        location := some (area ++ " " ++ city)
        description := none
        config := none
        image := some "https://images.unsplash.com/photo-1522708323590-d24dbb6b0267?w=400"
        link := some ("https://olx.in/property-" ++ String.mk (lowerChars city.data) ++
          "-" ++ toString (i + 1) ++ "-" ++ d.uuid) }
      city i d.fmt)

/-- Per-iteration draws of `_generateMagicBricksFallbackData`. -/
structure MagicBricksDraw where
  configPick : Fin 3
  pricePick : Fin 80
  fmt : FormatRng

/-- Embedding of `ScraperService._generateMagicBricksFallbackData`. -/
def generateMagicBricksFallbackData (city : String) (limit : ℕ)
    (draws : ℕ → MagicBricksDraw) : List PRecord :=
  (List.range limit).map (fun i =>
    let d := draws i
    formatMagicBricksProperty
      { title := some ("MagicBricks Property " ++ toString (i + 1) ++ " in " ++ city)
        price := some ("₹" ++ toString (d.pricePick.val + 20) ++ " Lakh")
        location := some ("Premium " ++ city)
        description := none
        config := some (toString (d.configPick.val + 1) ++ " BHK")
        image := some "https://images.unsplash.com/photo-1600596542815-ffad4c1539a9?w=400"
        link := some "https://magicbricks.com" }
      city i d.fmt)

/-- Candidate list produced by `ScraperService.scrapeHousingCom`: the real
extraction outcome (an external fetch, passed as a parameter) is replaced
by the synthetic generator when it yields no candidates or throws. -/
def scrapeHousingCom (city : String) (limit : ℕ)
    (extraction : Except String (List PRecord)) (draws : ℕ → HousingDraw) : List PRecord :=
  match extraction with
  | .ok props => if props.length = 0 then generateHousingFallbackData city limit draws else props
  | .error _ => generateHousingFallbackData city limit draws

/-- Candidate list produced by `ScraperService.scrapeOLX` (same fallback
shape as Housing.com). -/
def scrapeOLX (city : String) (limit : ℕ)
    (extraction : Except String (List PRecord)) (draws : ℕ → OLXDraw) : List PRecord :=
  match extraction with
  | .ok props => if props.length = 0 then generateOLXFallbackData city limit draws else props
  | .error _ => generateOLXFallbackData city limit draws

/-- Candidate list produced by `ScraperService.scrapeMagicBricks` (same
fallback shape as Housing.com). -/
def scrapeMagicBricks (city : String) (limit : ℕ)
    (extraction : Except String (List PRecord)) (draws : ℕ → MagicBricksDraw) : List PRecord :=
  match extraction with
  | .ok props =>
    if props.length = 0 then generateMagicBricksFallbackData city limit draws else props
  | .error _ => generateMagicBricksFallbackData city limit draws

/-! ## AIProcessor and the merge step of ScraperService.processWithAI -/

/-- Source attribution of a scraped candidate (`source.name`, `source.url`,
`source.scrapedAt`), copied wholesale by the merge. -/
structure SourceStamp where
  name : String
  url : String
  scrapedAt : String
deriving DecidableEq

/-- A raw scraped candidate as seen by `processWithAI` (the output shape of
the `_format*Property` helpers, fields flattened). -/
structure RawProp where
  title : Option String
  description : Option String
  price : Option ℚ
  priceType : Option String
  locCity : Option String
  locArea : Option String
  locFullAddress : Option String
  propertyType : Option String
  bhk : Option ℚ
  areaSize : Option ℚ
  areaUnit : Option String
  amenities : Option (List String)
  images : Option (List String)
  contactPhone : Option String
  contactEmail : Option String
  contactAgent : Option String
  source : SourceStamp
  confidence : Option ℚ
deriving DecidableEq

/-- The enrichment reply as consumed by the merge step (the output of
`AIProcessor.processPropertyData`, fields flattened; `none` stands for an
absent / `null` / `NaN` value, all of which are falsy). -/
structure AIReply where
  title : Option String
  description : Option String
  price : Option ℚ
  priceType : Option String
  locCity : Option String
  locArea : Option String
  locFullAddress : Option String
  propertyType : Option String
  bhk : Option ℚ
  areaSize : Option ℚ
  areaUnit : Option String
  amenities : Option (List String)
  images : Option (List String)
  contactPhone : Option String
  contactEmail : Option String
  contactAgent : Option String
  confidence : Option ℚ
deriving DecidableEq

/-- The merged `enhancedProperty` object: every field is resolved (possibly
to a default), `source` is a verbatim copy, and the AI metadata is set. -/
structure MergedProp where
  title : Option String
  description : Option String
  price : Option ℚ
  priceType : String
  locCity : String
  locArea : String
  locFullAddress : String
  propertyType : String
  bhk : Option ℚ
  areaSize : ℚ
  areaUnit : String
  amenities : List String
  images : List String
  contactPhone : String
  contactEmail : String
  contactAgent : String
  source : SourceStamp
  aiProcessed : Bool
  confidence : ℚ
deriving DecidableEq

/-- Embedding of the `enhancedProperty` merge of
`ScraperService.processWithAI`: reply fields win when truthy, otherwise
the candidate's raw field, otherwise the field's literal default;
`source` is always `rawProperty.source`; `aiProcessed := true`;
`confidence := aiProcessed.confidence || 0.5`. -/
def mergeAI (rawProperty : RawProp) (aiReply : AIReply) : MergedProp :=
  { title := jsOrS aiReply.title rawProperty.title
    description := jsOrS aiReply.description rawProperty.description
    price := jsOrQ aiReply.price rawProperty.price
    priceType := jsOrSD (jsOrS aiReply.priceType rawProperty.priceType) "sale"
    locCity := jsOrSD (jsOrS aiReply.locCity rawProperty.locCity) "Unknown City"
    locArea := jsOrSD (jsOrS aiReply.locArea rawProperty.locArea) ""
    locFullAddress := jsOrSD (jsOrS aiReply.locFullAddress rawProperty.locFullAddress) ""
    propertyType := jsOrSD (jsOrS aiReply.propertyType rawProperty.propertyType) "apartment"
    bhk := jsOrQ aiReply.bhk rawProperty.bhk
    areaSize := jsOrQD (jsOrQ aiReply.areaSize rawProperty.areaSize) 0
    areaUnit := jsOrSD (jsOrS aiReply.areaUnit rawProperty.areaUnit) "sqft"
    amenities := jsOrL aiReply.amenities (jsOrL rawProperty.amenities [])
    images := jsOrL aiReply.images (jsOrL rawProperty.images [])
    contactPhone := jsOrSD (jsOrS aiReply.contactPhone rawProperty.contactPhone) ""
    contactEmail := jsOrSD (jsOrS aiReply.contactEmail rawProperty.contactEmail) ""
    contactAgent := jsOrSD (jsOrS aiReply.contactAgent rawProperty.contactAgent) ""
    source := rawProperty.source
    aiProcessed := true
    confidence := jsOrQD aiReply.confidence (1 / 2) }

/-- A property after `processWithAI`: either the merged enhancement, or —
when `AIProcessor.processPropertyData` threw — the raw candidate spread
with `aiProcessed: false, confidence: 0.3`. -/
inductive ProcessedProp where
  | merged (m : MergedProp)
  | fallback (rawProperty : RawProp)
deriving DecidableEq

/-- The `confidence` field of a processed property (0.3 on the fallback
path). -/
def confidenceOf : ProcessedProp → ℚ
  | .merged m => m.confidence
  | .fallback _ => 3 / 10

/-- The `aiProcessed` flag of a processed property (`false` on the fallback
path). -/
def aiProcessedOf : ProcessedProp → Bool
  | .merged _ => true
  | .fallback _ => false

/-- The `source` field of a processed property (both paths preserve the
candidate's source). -/
def sourceOf : ProcessedProp → SourceStamp
  | .merged m => m.source
  | .fallback r => r.source

/-- One iteration of the `processWithAI` loop: on a successful enrichment
call the merge runs; on a thrown error the catch block marks the raw
candidate as unprocessed. -/
def processOneWithAI (rawProperty : RawProp) (aiOutcome : Except Unit AIReply) : ProcessedProp :=
  match aiOutcome with
  | .ok reply => .merged (mergeAI rawProperty reply)
  | .error _ => .fallback rawProperty

/-- Embedding of `ScraperService.processWithAI`: the enrichment call's
outcome for the `i`-th candidate is `oracle i` (external service). -/
def processWithAI (rawProperties : List RawProp) (oracle : ℕ → Except Unit AIReply) :
    List ProcessedProp :=
  rawProperties.mapIdx (fun i r => processOneWithAI r (oracle i))

/-- A JSON value in a reply field that the code type-tests with `typeof`:
a number, a string, or anything else (`missing` covers absent, `null` and
non-numeric non-string values). -/
inductive JVal where
  | num (q : ℚ)
  | str (s : String)
  | missing
deriving DecidableEq

/-- Location block of a parsed enrichment reply. -/
structure RawReplyLoc where
  city : Option String
  area : Option String
  fullAddress : Option String
deriving DecidableEq

/-- Area block of a parsed enrichment reply. -/
structure RawReplyArea where
  size : JVal
  unit : Option String
deriving DecidableEq

/-- Contact block of a parsed enrichment reply. -/
structure RawReplyContact where
  phone : Option String
  email : Option String
  agent : Option String
deriving DecidableEq

/-- A parsed enrichment reply (the JSON object handed to
`AIProcessor.validateAndCleanData`). -/
structure RawReply where
  title : Option String
  description : Option String
  price : JVal
  priceType : Option String
  location : Option RawReplyLoc
  propertyType : Option String
  bhk : JVal
  area : Option RawReplyArea
  amenities : Option (List String)
  images : Option (List String)
  contact : Option RawReplyContact
  confidence : Option ℚ
deriving DecidableEq

/-- Embedding of `AIProcessor.cleanPrice`: a number passes through, a
string is parsed from its first digits-and-commas run (`0` when the regex
does not match, `NaN` — embedded as `none` — when the run has no digits),
anything else becomes `0`. -/
def cleanPrice : JVal → Option ℚ
  | .num q => some q
  | .str s =>
    match firstRun s.data with
    | some run =>
      match jsParseInt (run.filter (fun c => c != ',')) with
      | some n => some ((n : ℕ) : ℚ)
      | none => none
    | none => some 0
  | .missing => some 0

/-- First match of `/\d+/`. -/
def firstDigitRun : List Char → Option (List Char)
  | [] => none
  | c :: cs =>
    if c.isDigit then some ((c :: cs).takeWhile Char.isDigit)
    else firstDigitRun cs

/-- Embedding of `AIProcessor.cleanNumber`: a number passes through, a
string yields its first digit run, anything else becomes `null`
(embedded as `none`). -/
def cleanNumber : JVal → Option ℚ
  | .num q => some q
  | .str s => (firstDigitRun s.data).map (fun ds => ((digitsVal ds : ℕ) : ℚ))
  | .missing => none

/-- The confidence line of `AIProcessor.validateAndCleanData`:
`Math.max(0.1, Math.min(1, data.confidence || 0.5))`. -/
def cleanConfidence (c : Option ℚ) : ℚ :=
  jsMax (1 / 10) (jsMin 1 (jsOrQD c (1 / 2)))

/-- Embedding of `AIProcessor.validateAndCleanData`. -/
def validateAndCleanData (data : RawReply) : AIReply :=
  { title := some (jsOrSD data.title "Unknown Property")
    description := some (jsOrSD data.description "")
    price := cleanPrice data.price
    priceType := some
      (match data.priceType with
       | some p => if ["rent", "sale"].contains p then p else "sale"
       | none => "sale")
    locCity := some (jsOrSD (data.location.bind (fun l => l.city)) "Unknown City")
    locArea := some (jsOrSD (data.location.bind (fun l => l.area)) "")
    locFullAddress := some (jsOrSD (data.location.bind (fun l => l.fullAddress)) "")
    propertyType := some
      (match data.propertyType with
       | some p =>
         if ["apartment", "house", "villa", "plot", "commercial", "other"].contains p then p
         else "apartment"
       | none => "apartment")
    bhk := cleanNumber data.bhk
    areaSize := some (jsOrQD
      (cleanNumber
        (match data.area with
         | some a => a.size
         | none => .missing)) 0)
    areaUnit := some
      (match data.area.bind (fun a => a.unit) with
       | some u => if ["sqft", "sqm", "acres"].contains u then u else "sqft"
       | none => "sqft")
    amenities := some
      (match data.amenities with
       | some l => l.filter (fun a => a != "")
       | none => [])
    images := some
      (match data.images with
       | some l => l.filter (fun a => a != "")
       | none => [])
    contactPhone := some (jsOrSD (data.contact.bind (fun c => c.phone)) "")
    contactEmail := some (jsOrSD (data.contact.bind (fun c => c.email)) "")
    contactAgent := some (jsOrSD (data.contact.bind (fun c => c.agent)) "")
    confidence := some (cleanConfidence data.confidence) }

/-! ## Auxiliary definitions used by the statements below -/

/-- Modelled from the spec: the `(source.name, source.url)` natural-key
lookup the spec describes for the Fingerprint Store.  The code's own
duplicate check (`existsBySourceUrl`) consults only `source.url`; this
definition exists to state that divergence. -/
def existsByNameAndUrl (name url : String) (store : List PRecord) : Bool :=
  store.any (fun p =>
    match p.source with
    | some s => s.name == some name && s.url == some url
    | none => false)

/-- Replace a record's `source.name` (when a source object is present),
leaving every other field — in particular `source.url` — unchanged. -/
def setSourceName (r : PRecord) (n : String) : PRecord :=
  { r with source := r.source.map (fun s => { s with name := some n }) }

/-- A concrete environment for witnesses: the abstracted Joi format
checkers accept everything and persistence never throws. -/
def trueCtx : Ctx :=
  { isUri := fun _ => true
    isEmail := fun _ => true
    isDate := fun _ => true
    createFails := fun _ => false }

/-- Concrete source: Housing.com at a fixed url. -/
def srcA : PSource :=
  { name := some "Housing.com", url := some "https://example.com/p1", scrapedAt := none }

/-- Concrete source: OLX at the same url as `srcA`. -/
def srcB : PSource :=
  { name := some "OLX", url := some "https://example.com/p1", scrapedAt := none }

/-- Concrete location block. -/
def locMumbai : PLocation :=
  { city := some "Mumbai", area := none, fullAddress := none, coordinates := none }

/-- Concrete area block. -/
def areaStd : PArea := { size := some 500, unit := none }

/-- Concrete schema-valid record attributed to Housing.com. -/
def recA : PRecord :=
  { title := some "Flat"
    description := none
    price := some 100
    priceType := none
    location := some locMumbai
    propertyType := none
    bhk := none
    area := some areaStd
    amenities := none
    images := none
    source := some srcA
    contact := none
    status := none
    confidence := none
    tags := none
    featured := none }

/-- `recA` re-attributed to OLX (same `source.url`, different
`source.name`). -/
def recB : PRecord := { recA with source := some srcB }

/-- Concrete source with a name outside the schema's allowed set. -/
def srcBogus : PSource :=
  { name := some "Bogus", url := some "https://example.com/p1", scrapedAt := none }

/-- `recA` with a `source.name` outside the schema's allowed set. -/
def recBogus : PRecord := { recA with source := some srcBogus }

/-- `recB` without a title: schema-invalid, same `source.url` as `recA`. -/
def recNoTitle : PRecord := { recB with title := none }

/-- Concrete format-level draw bundle. -/
def defaultFormatRng : FormatRng :=
  { bhkDraw := 0, priceDraw := 0, sizeDraw := 0, phoneDraw := 0
    now := "2024-01-01T00:00:00Z" }

/-- Concrete Housing.com generator draw. -/
def defaultHousingDraw : HousingDraw :=
  { areaPick := 0, typePick := 0, bhkPick := 0, pricePick := 0
    fmt := defaultFormatRng, uuid := "00000000-0000-4000-8000-000000000000" }

/-- Concrete OLX generator draw. -/
def defaultOLXDraw : OLXDraw :=
  { areaPick := 0, typePick := 0, bhkPick := 0, pricePick := 0
    fmt := defaultFormatRng, uuid := "00000000-0000-4000-8000-000000000001" }

/-- Concrete MagicBricks generator draw. -/
def defaultMagicBricksDraw : MagicBricksDraw :=
  { configPick := 0, pricePick := 0, fmt := defaultFormatRng }

/-- Concrete source stamp for merge-step examples. -/
def stampA : SourceStamp :=
  { name := "Housing.com", url := "https://example.com/p1", scrapedAt := "2024-01-01T00:00:00Z" }

/-- Concrete raw candidate for merge-step examples. -/
def rawDesc : RawProp :=
  { title := some "2 BHK Flat"
    description := some "Spacious 2 BHK near the park"
    price := some 100
    priceType := none
    locCity := some "Mumbai"
    locArea := none
    locFullAddress := none
    propertyType := none
    bhk := some 2
    areaSize := some 500
    areaUnit := some "sqft"
    amenities := none
    images := none
    contactPhone := none
    contactEmail := none
    contactAgent := none
    source := stampA
    confidence := some 1 }

/-- Concrete enrichment reply whose `description` is present but empty
(a falsy-but-present field). -/
def replyEmptyDesc : AIReply :=
  { title := none
    description := some ""
    price := none
    priceType := none
    locCity := none
    locArea := none
    locFullAddress := none
    propertyType := none
    bhk := none
    areaSize := none
    areaUnit := none
    amenities := none
    images := none
    contactPhone := none
    contactEmail := none
    contactAgent := none
    confidence := some 1 }

/-- Concrete parsed enrichment reply: everything missing except a
three-quarters confidence. -/
def replyRaw0 : RawReply :=
  { title := none
    description := none
    price := .missing
    priceType := none
    location := none
    propertyType := none
    bhk := .missing
    area := none
    amenities := none
    images := none
    contact := none
    confidence := some (3 / 4) }

/-- Concrete enrichment reply with several truthy fields. -/
def replyFull : AIReply :=
  { title := some "Spacious Flat in Pune"
    description := some "Great flat"
    price := some 9500000
    priceType := some "rent"
    locCity := some "Pune"
    locArea := none
    locFullAddress := none
    propertyType := none
    bhk := some 3
    areaSize := none
    areaUnit := none
    amenities := none
    images := none
    contactPhone := none
    contactEmail := none
    contactAgent := none
    confidence := some 1 }

/-! ## Helper lemmas -/

/-- A truthy string field survives `||`. -/
theorem jsOrS_of_truthy {a b : Option String} (h : truthyS a = true) : jsOrS a b = a := by
  simp [jsOrS, h]

/-- A falsy string field yields the right operand of `||`. -/
theorem jsOrS_of_falsy {a b : Option String} (h : truthyS a = false) : jsOrS a b = b := by
  simp [jsOrS, h]

/-- A truthy number field survives `||`. -/
theorem jsOrQ_of_truthy {a b : Option ℚ} (h : truthyQ a = true) : jsOrQ a b = a := by
  simp [jsOrQ, h]

/-- A falsy number field yields the right operand of `||`. -/
theorem jsOrQ_of_falsy {a b : Option ℚ} (h : truthyQ a = false) : jsOrQ a b = b := by
  simp [jsOrQ, h]

/-- A non-empty string survives `|| default`. -/
theorem jsOrSD_of_ne {s : String} (d : String) (h : s ≠ "") : jsOrSD (some s) d = s := by
  simp [jsOrSD, h]

/-- A falsy string field is replaced by the default. -/
theorem jsOrSD_of_falsy {a : Option String} (d : String) (h : truthyS a = false) :
    jsOrSD a d = d := by
  cases a with
  | none => rfl
  | some s =>
    simp [truthyS] at h
    simp [jsOrSD, h]

/-- A non-zero number survives `|| default`. -/
theorem jsOrQD_of_ne {q : ℚ} (d : ℚ) (h : q ≠ 0) : jsOrQD (some q) d = q := by
  simp [jsOrQD, h]

/-- A falsy number field is replaced by the default. -/
theorem jsOrQD_of_falsy {a : Option ℚ} (d : ℚ) (h : truthyQ a = false) : jsOrQD a d = d := by
  cases a with
  | none => rfl
  | some q =>
    simp [truthyQ] at h
    simp [jsOrQD, h]

/-- The cleaned confidence is at least `0.1`. -/
theorem cleanConfidence_lower (c : Option ℚ) : 1 / 10 ≤ cleanConfidence c := by
  simp only [cleanConfidence, jsMax, jsMin]
  split_ifs <;> linarith

/-- The cleaned confidence is at most `1`. -/
theorem cleanConfidence_upper (c : Option ℚ) : cleanConfidence c ≤ 1 := by
  simp only [cleanConfidence, jsMax, jsMin]
  split_ifs <;> linarith

/-- The cleaned confidence is never zero. -/
theorem cleanConfidence_ne_zero (c : Option ℚ) : cleanConfidence c ≠ 0 := by
  have := cleanConfidence_lower c
  intro h
  rw [h] at this
  linarith

/-- A reply confidence that does not exceed `1` is never lowered by the
cleaning step. -/
theorem le_cleanConfidence_of_le_one {v : ℚ} (h : v ≤ 1) : v ≤ cleanConfidence (some v) := by
  simp only [cleanConfidence, jsMax, jsMin, jsOrQD, beq_iff_eq]
  split_ifs <;> linarith

/-- `bulkGo` classifies every input record: one outcome per record. -/
theorem bulkGo_length (ctx : Ctx) :
    ∀ (rs store : List PRecord), (bulkGo ctx rs store).1.length = rs.length := by
  intro rs
  induction rs with
  | nil => intro store; rfl
  | cons r rs ih =>
    intro store
    simp [bulkGo, ih]

/-- Every outcome is exactly one of created / error / duplicate, so the
three filtered lengths partition the outcome list. -/
theorem outcome_partition :
    ∀ os : List BulkOutcome,
      (os.filter isCreated).length + (os.filter isError).length +
        (os.filter isDuplicate).length = os.length := by
  intro os
  induction os with
  | nil => rfl
  | cons o os ih =>
    cases o <;> simp [isCreated, isError, isDuplicate, List.filter] <;> omega

/-- A record whose url is already stored is classified duplicate (the
existence check runs before validation, so even an invalid record is a
duplicate). -/
theorem processOne_of_exists {ctx : Ctx} {store : List PRecord} {r : PRecord}
    (h : existsCheck r store = true) : processOne ctx store r = (.duplicate, store) := by
  simp [processOne, h]

/-- A fresh invalid record is classified error (validation runs before
persistence). -/
theorem processOne_of_invalid {ctx : Ctx} {store : List PRecord} {r : PRecord}
    (h1 : existsCheck r store = false) (h2 : validateProperty ctx r = false) :
    processOne ctx store r = (.error, store) := by
  simp [processOne, h1, h2]

/-- A fresh valid record whose persistence succeeds is classified created
and appended to the store. -/
theorem processOne_of_valid {ctx : Ctx} {store : List PRecord} {r : PRecord}
    (h1 : existsCheck r store = false) (h2 : validateProperty ctx r = true)
    (h3 : ctx.createFails r = false) : processOne ctx store r = (.created, store ++ [r]) := by
  simp [processOne, h1, h2, h3]

/-- A record is classified duplicate exactly when the duplicate check
fires; neither validation nor persistence can produce that class. -/
theorem processOne_duplicate_iff (ctx : Ctx) (store : List PRecord) (r : PRecord) :
    (processOne ctx store r).1 = BulkOutcome.duplicate ↔ existsCheck r store = true := by
  by_cases h : existsCheck r store
  · simp [processOne, h]
  · simp only [Bool.not_eq_true] at h
    simp only [processOne, h]
    split_ifs <;> simp_all

/-- Renaming the source leaves the record's url untouched. -/
theorem sourceUrlOf_setSourceName (r : PRecord) (n : String) :
    sourceUrlOf (setSourceName r n) = sourceUrlOf r := by
  cases h : r.source <;> simp [setSourceName, sourceUrlOf, h]

/-- Renaming the source leaves the duplicate check untouched. -/
theorem existsCheck_setSourceName (r : PRecord) (n : String) (store : List PRecord) :
    existsCheck (setSourceName r n) store = existsCheck r store := by
  simp [existsCheck, sourceUrlOf_setSourceName]

/-- After a record with url `u` is persisted, the existence check for `u`
fires. -/
theorem existsBySourceUrl_append_self {r : PRecord} {u : String} (store : List PRecord)
    (h : sourceUrlOf r = some u) : existsBySourceUrl u (store ++ [r]) = true := by
  obtain ⟨s, hs, hurl⟩ := Option.bind_eq_some.mp h
  simp only [existsBySourceUrl, List.any_append, Bool.or_eq_true]
  right
  simp [hs, hurl]

/-- Per-record save failures carry no source name. -/
theorem srcErrSources_map_recErr (xs : List PRecord) :
    srcErrSources (xs.map ErrEntry.recErr) = [] := by
  induction xs with
  | nil => rfl
  | cons x xs _ => simp [srcErrSources, List.filterMap]

/-- `srcErrSources` distributes over append. -/
theorem srcErrSources_append (xs ys : List ErrEntry) :
    srcErrSources (xs ++ ys) = srcErrSources xs ++ srcErrSources ys := by
  simp [srcErrSources]

/-- With fuel left, the retry loop calls `fn` at least once. -/
theorem withRetryGo_calls_pos (fn : ℕ → Except ε α) (base : ℕ) :
    ∀ (n idx : ℕ), 1 ≤ n → 1 ≤ (withRetryGo fn base idx n).calls := by
  intro n idx hn
  match n, hn with
  | n + 1, _ =>
    simp only [withRetryGo]
    cases fn idx with
    | ok a => simp
    | error e =>
      by_cases h : n = 0
      · simp [h]
      · simp only [h, if_false]
        omega

/-- Shape of the slept delays: with `c` calls made, the delays are
`base*(idx+1), base*(idx+2), …` — one per failed non-final attempt. -/
theorem withRetryGo_delays (fn : ℕ → Except ε α) (base : ℕ) :
    ∀ (n idx : ℕ),
      (withRetryGo fn base idx n).delays =
        (List.range ((withRetryGo fn base idx n).calls - 1)).map
          (fun k => base * (idx + 1 + k)) := by
  intro n
  induction n with
  | zero => intro idx; rfl
  | succ n ih =>
    intro idx
    simp only [withRetryGo]
    cases fn idx with
    | ok a => simp
    | error e =>
      by_cases h : n = 0
      · simp [h]
      · simp only [h, if_false]
        have hpos := withRetryGo_calls_pos fn base n (idx + 1) (Nat.one_le_iff_ne_zero.mpr h)
        obtain ⟨m, hm⟩ : ∃ m, (withRetryGo fn base (idx + 1) n).calls = m + 1 :=
          ⟨(withRetryGo fn base (idx + 1) n).calls - 1, (Nat.succ_pred_eq_of_pos hpos).symm⟩
        rw [ih (idx + 1), hm]
        simp only [Nat.add_sub_cancel, List.range_succ_eq_map, List.map_cons, List.map_map,
          Nat.add_zero]
        congr 1
        apply List.map_congr_left
        intro k _
        simp only [Function.comp]
        congr 1
        omega

/-- When every allowed attempt fails, the loop result is the error of the
last attempt. -/
theorem withRetryGo_all_fail (fn : ℕ → Except ε α) (base : ℕ) (efn : ℕ → ε) :
    ∀ (n idx : ℕ), 1 ≤ n → (∀ j, j < n → fn (idx + j) = .error (efn (idx + j))) →
      (withRetryGo fn base idx n).result = .err (efn (idx + n - 1)) := by
  intro n
  induction n with
  | zero => intro idx h; omega
  | succ n ih =>
    intro idx _ hall
    have h0 : fn idx = .error (efn idx) := by simpa using hall 0 (by omega)
    simp only [withRetryGo, h0]
    by_cases h : n = 0
    · simp [h]
    · simp only [h, if_false]
      have hrec := ih (idx + 1) (Nat.one_le_iff_ne_zero.mpr h)
        (fun j hj => by
          have := hall (j + 1) (by omega)
          simpa [Nat.add_assoc, Nat.add_comm 1 j] using this)
      rw [hrec]
      congr 1
      congr 1
      omega

/-- When the first `k` calls fail and call `k` (0-indexed) succeeds within
the allowed attempts, the loop stops right there: it returns the
succeeding attempt's value, makes exactly `k + 1` calls, and has slept
`base*(idx+1), …, base*(idx+k)` before the retries. -/
theorem withRetryGo_success_stop (fn : ℕ → Except ε α) (base : ℕ) (efn : ℕ → ε) (a : α) :
    ∀ (k n idx : ℕ), k < n → (∀ j, j < k → fn (idx + j) = .error (efn (idx + j))) →
      fn (idx + k) = Except.ok a →
      withRetryGo fn base idx n =
        ⟨.ok a, (List.range k).map (fun j => base * (idx + 1 + j)), k + 1⟩ := by
  intro k
  induction k with
  | zero =>
    intro n idx hk _ hok
    match n, hk with
    | m + 1, _ =>
      have h0 : fn idx = Except.ok a := by simpa using hok
      simp [withRetryGo, h0]
  | succ k ih =>
    intro n idx hk hfail hok
    match n, hk with
    | m + 1, hk =>
      have hm : k < m := by omega
      have h0 : fn idx = .error (efn idx) := by simpa using hfail 0 (by omega)
      have hmne : m ≠ 0 := by omega
      simp only [withRetryGo, h0]
      rw [if_neg hmne]
      rw [ih m (idx + 1) hm
        (fun j hj => by
          have := hfail (j + 1) (by omega)
          simpa [Nat.add_assoc, Nat.add_comm 1 j] using this)
        (by simpa [Nat.add_assoc, Nat.add_comm 1 k] using hok)]
      simp only [List.range_succ_eq_map, List.map_cons, List.map_map, Nat.add_zero]
      congr 1
      congr 1
      apply List.map_congr_left
      intro j _
      simp only [Function.comp]
      congr 1
      omega

/-- The Housing.com generator always emits `limit` records. -/
theorem generateHousingFallbackData_length (city : String) (limit : ℕ)
    (draws : ℕ → HousingDraw) : (generateHousingFallbackData city limit draws).length = limit := by
  simp [generateHousingFallbackData]

/-- The OLX generator always emits `limit` records. -/
theorem generateOLXFallbackData_length (city : String) (limit : ℕ)
    (draws : ℕ → OLXDraw) : (generateOLXFallbackData city limit draws).length = limit := by
  simp [generateOLXFallbackData]

/-- The MagicBricks generator always emits `limit` records. -/
theorem generateMagicBricksFallbackData_length (city : String) (limit : ℕ)
    (draws : ℕ → MagicBricksDraw) :
    (generateMagicBricksFallbackData city limit draws).length = limit := by
  simp [generateMagicBricksFallbackData]

/-- Crore branch of `_extractPrice`. -/
theorem extractPriceStr_crore (s : String) (r n : ℕ) (hlead : leadRunVal s = some n)
    (hcr : hasCroreMarker s = true) : extractPriceStr s r = some (n * 10000000) := by
  obtain ⟨run, hrun, hparse⟩ := Option.bind_eq_some.mp hlead
  have hs : (s == "") = false := by
    refine beq_eq_false_iff_ne.mpr ?_
    intro he
    subst he
    have hnil : firstRun ("" : String).data = none := rfl
    rw [hnil] at hrun
    cases hrun
  simp [extractPriceStr, hs, hrun, hcr, hparse]

/-- Lakh branch of `_extractPrice`. -/
theorem extractPriceStr_lakh (s : String) (r n : ℕ) (hlead : leadRunVal s = some n)
    (hcr : hasCroreMarker s = false) (hl : hasLakhMarker s = true) :
    extractPriceStr s r = some (n * 100000) := by
  obtain ⟨run, hrun, hparse⟩ := Option.bind_eq_some.mp hlead
  have hs : (s == "") = false := by
    refine beq_eq_false_iff_ne.mpr ?_
    intro he
    subst he
    have hnil : firstRun ("" : String).data = none := rfl
    rw [hnil] at hrun
    cases hrun
  simp [extractPriceStr, hs, hrun, hcr, hl, hparse]

/-- Thousand branch of `_extractPrice`. -/
theorem extractPriceStr_thousand (s : String) (r n : ℕ) (hlead : leadRunVal s = some n)
    (hcr : hasCroreMarker s = false) (hl : hasLakhMarker s = false)
    (hk : hasThousandMarker s = true) : extractPriceStr s r = some (n * 1000) := by
  obtain ⟨run, hrun, hparse⟩ := Option.bind_eq_some.mp hlead
  have hs : (s == "") = false := by
    refine beq_eq_false_iff_ne.mpr ?_
    intro he
    subst he
    have hnil : firstRun ("" : String).data = none := rfl
    rw [hnil] at hrun
    cases hrun
  simp [extractPriceStr, hs, hrun, hcr, hl, hk, hparse]

/-- Currency-default branch of `_extractPrice`. -/
theorem extractPriceStr_rupee (s : String) (r n : ℕ) (hlead : leadRunVal s = some n)
    (hcr : hasCroreMarker s = false) (hl : hasLakhMarker s = false)
    (hk : hasThousandMarker s = false) (hr : hasRupeeSymbol s = true) :
    extractPriceStr s r = some (n * 100000) := by
  obtain ⟨run, hrun, hparse⟩ := Option.bind_eq_some.mp hlead
  have hs : (s == "") = false := by
    refine beq_eq_false_iff_ne.mpr ?_
    intro he
    subst he
    have hnil : firstRun ("" : String).data = none := rfl
    rw [hnil] at hrun
    cases hrun
  simp [extractPriceStr, hs, hrun, hcr, hl, hk, hr, hparse]

/-- As-is branch of `_extractPrice` (non-zero parsed number, no marker). -/
theorem extractPriceStr_plain (s : String) (r n : ℕ) (hlead : leadRunVal s = some n)
    (hcr : hasCroreMarker s = false) (hl : hasLakhMarker s = false)
    (hk : hasThousandMarker s = false) (hr : hasRupeeSymbol s = false) (hn : n ≠ 0) :
    extractPriceStr s r = some n := by
  obtain ⟨run, hrun, hparse⟩ := Option.bind_eq_some.mp hlead
  have hs : (s == "") = false := by
    refine beq_eq_false_iff_ne.mpr ?_
    intro he
    subst he
    have hnil : firstRun ("" : String).data = none := rfl
    rw [hnil] at hrun
    cases hrun
  simp [extractPriceStr, hs, hrun, hcr, hl, hk, hr, hparse, hn]

/-- Fallback branch of `_extractBHK`: with no bedroom token the drawn
random value (plus one) is returned. -/
theorem extractBHK_no_token {t : String} (u : Fin 3) (h : bhkScan t.data = none) :
    extractBHK (some t) u = u.val + 1 := by
  by_cases ht : (t == "") = true
  · simp [extractBHK, ht]
  · simp only [Bool.not_eq_true] at ht
    simp [extractBHK, ht, h]

/-! ## Claim C4: price extraction -/

/-- C4 (counterexample): the claim's examples `"₹1.2 Cr" → 12000000` and
`"25L" → 2500000` are false on the code: the `[\d,]+` run of `"₹1.2 Cr"`
is just `"1"` (a decimal point ends the run), giving `10000000`, and the
bare `"L"` of `"25L"` matches none of the `cr`/`lakh`/`k`/`₹` tests, so
`25` is returned as-is. -/
theorem C4_counterexample :
    extractPriceStr "₹1.2 Cr" 0 = some 10000000 ∧
      (some 10000000 : Option ℕ) ≠ some 12000000 ∧
      extractPriceStr "25L" 0 = some 25 ∧ (some 25 : Option ℕ) ≠ some 2500000 := by
  refine ⟨by decide, by decide, by decide, by decide⟩

/-- C4 (amended): for every price string the extracted price is the value
of the first digits-and-commas run (commas stripped; a decimal point ends
the run), multiplied by 10,000,000 when the lower-cased string contains
`"cr"`, else by 100,000 when it contains `"lakh"`, else by 1,000 when it
contains `"k"`, else by 100,000 when the string contains `"₹"`, and taken
as-is otherwise (when non-zero); in particular `"₹1.2 Cr" → 10000000`
(the fractional part is dropped before scaling), `"50 lakhs" → 5000000`,
`"25L" → 25` (bare `"L"` is not a recognised lakh marker), and
`"5000000" → 5000000`. -/
theorem C4_amended :
    (∀ r : ℕ, extractPriceStr "₹1.2 Cr" r = some 10000000) ∧
    (∀ r : ℕ, extractPriceStr "50 lakhs" r = some 5000000) ∧
    (∀ r : ℕ, extractPriceStr "25L" r = some 25) ∧
    (∀ r : ℕ, extractPriceStr "5000000" r = some 5000000) ∧
    (∀ (s : String) (r n : ℕ), leadRunVal s = some n → hasCroreMarker s = true →
      extractPriceStr s r = some (n * 10000000)) ∧
    (∀ (s : String) (r n : ℕ), leadRunVal s = some n → hasCroreMarker s = false →
      hasLakhMarker s = true → extractPriceStr s r = some (n * 100000)) ∧
    (∀ (s : String) (r n : ℕ), leadRunVal s = some n → hasCroreMarker s = false →
      hasLakhMarker s = false → hasThousandMarker s = true →
      extractPriceStr s r = some (n * 1000)) ∧
    (∀ (s : String) (r n : ℕ), leadRunVal s = some n → hasCroreMarker s = false →
      hasLakhMarker s = false → hasThousandMarker s = false → hasRupeeSymbol s = true →
      extractPriceStr s r = some (n * 100000)) ∧
    (∀ (s : String) (r n : ℕ), leadRunVal s = some n → hasCroreMarker s = false →
      hasLakhMarker s = false → hasThousandMarker s = false → hasRupeeSymbol s = false →
      n ≠ 0 → extractPriceStr s r = some n) := by
  refine ⟨?_, ?_, ?_, ?_, extractPriceStr_crore, extractPriceStr_lakh, extractPriceStr_thousand,
    extractPriceStr_rupee, extractPriceStr_plain⟩
  · intro r
    simpa using extractPriceStr_crore "₹1.2 Cr" r 1 (by decide) (by decide)
  · intro r
    simpa using extractPriceStr_lakh "50 lakhs" r 50 (by decide) (by decide) (by decide)
  · intro r
    exact extractPriceStr_plain "25L" r 25 (by decide) (by decide) (by decide) (by decide)
      (by decide) (by decide)
  · intro r
    exact extractPriceStr_plain "5000000" r 5000000 (by decide) (by decide) (by decide)
      (by decide) (by decide) (by decide)

/-- C4 (witness): the amended branch rules evaluated at concrete inputs. -/
theorem C4_witness :
    extractPriceStr "₹2 Cr" 7 = some 20000000 ∧ extractPriceStr "12 Lakh" 7 = some 1200000 ∧
      extractPriceStr "₹75" 7 = some 7500000 := by
  refine ⟨?_, ?_, ?_⟩
  · simpa using C4_amended.2.2.2.2.1 "₹2 Cr" 7 2 (by decide) (by decide)
  · simpa using C4_amended.2.2.2.2.2.1 "12 Lakh" 7 12 (by decide) (by decide) (by decide)
  · simpa using C4_amended.2.2.2.2.2.2.2.1 "₹75" 7 75 (by decide) (by decide) (by decide)
      (by decide) (by decide)

/-! ## Claim C5: bedroom extraction -/

/-- C5 (counterexample): `"Studio apartment"` does not yield an absent
bedroom count; `_extractBHK` invents a fallback value
`Math.floor(Math.random()*3)+1`, so the result is `1`, `2` or `3`
depending on the draw — never absent. -/
theorem C5_counterexample :
    extractBHK (some "Studio apartment") (0 : Fin 3) = 1 ∧
      extractBHK (some "Studio apartment") (2 : Fin 3) = 3 ∧ (1 : ℕ) ≠ 3 := by
  refine ⟨by decide, by decide, by decide⟩

/-- C5 (amended): bedroom extraction returns the first integer followed
(after optional whitespace) by a bedroom token (`bhk`/`bedroom`/`bed`,
case-insensitive) — in particular `"2 BHK apartment"` yields `2` — and
when no such token occurs (e.g. `"Studio apartment"`) it does not report
absence but invents a random fallback value in `{1, 2, 3}`. -/
theorem C5_amended :
    (∀ u : Fin 3, extractBHK (some "2 BHK apartment") u = 2) ∧
    (∀ (t : String) (u : Fin 3) (n : ℕ), bhkScan t.data = some n →
      extractBHK (some t) u = n) ∧
    (∀ (t : String) (u : Fin 3), bhkScan t.data = none →
      extractBHK (some t) u = u.val + 1) ∧
    (∀ (t : String) (u : Fin 3), bhkScan t.data = none →
      1 ≤ extractBHK (some t) u ∧ extractBHK (some t) u ≤ 3) := by
  refine ⟨?_, ?_, ?_, ?_⟩
  · intro u
    have h : bhkScan ("2 BHK apartment" : String).data = some 2 := by decide
    have ht : (("2 BHK apartment" : String) == "") = false := by decide
    simp [extractBHK, ht, h]
  · intro t u n h
    have ht : (t == "") = false := by
      refine beq_eq_false_iff_ne.mpr ?_
      intro he
      subst he
      have hnil : bhkScan ("" : String).data = none := rfl
      rw [hnil] at h
      cases h
    simp [extractBHK, ht, h]
  · intro t u h
    exact extractBHK_no_token u h
  · intro t u h
    rw [extractBHK_no_token u h]
    have := u.isLt
    omega

/-- C5 (witness): the amended rules evaluated at concrete inputs. -/
theorem C5_witness :
    extractBHK (some "2 BHK apartment") (0 : Fin 3) = 2 ∧
      extractBHK (some "3 BHK Flat for Sale") (1 : Fin 3) = 3 ∧
      extractBHK (some "Studio apartment") (1 : Fin 3) = 2 := by
  refine ⟨C5_amended.1 0, ?_, ?_⟩
  · exact C5_amended.2.1 "3 BHK Flat for Sale" 1 3 (by decide)
  · exact C5_amended.2.2.1 "Studio apartment" 1 (by decide)

/-! ## More helper lemmas: two-level `||` chains of the merge -/

/-- A truthy reply field wins the `reply || raw || default` chain. -/
theorem jsOr2SD_reply {a b : Option String} {s : String} (d : String) (h : a = some s)
    (hne : s ≠ "") : jsOrSD (jsOrS a b) d = s := by
  subst h
  rw [jsOrS_of_truthy (by simp [truthyS, hne])]
  exact jsOrSD_of_ne d hne

/-- With a falsy reply field, a truthy raw field wins the chain. -/
theorem jsOr2SD_raw {a b : Option String} {s : String} (d : String) (ha : truthyS a = false)
    (h : b = some s) (hne : s ≠ "") : jsOrSD (jsOrS a b) d = s := by
  subst h
  rw [jsOrS_of_falsy ha]
  exact jsOrSD_of_ne d hne

/-- With both fields falsy, the chain yields the default. -/
theorem jsOr2SD_default {a b : Option String} (d : String) (ha : truthyS a = false)
    (hb : truthyS b = false) : jsOrSD (jsOrS a b) d = d := by
  rw [jsOrS_of_falsy ha]
  exact jsOrSD_of_falsy d hb

/-- A truthy numeric reply field wins the `reply || raw || default` chain. -/
theorem jsOr2QD_reply {a b : Option ℚ} {q : ℚ} (d : ℚ) (h : a = some q) (hne : q ≠ 0) :
    jsOrQD (jsOrQ a b) d = q := by
  subst h
  rw [jsOrQ_of_truthy (by simp [truthyQ, hne])]
  exact jsOrQD_of_ne d hne

/-- With a falsy numeric reply field, a truthy raw field wins the chain. -/
theorem jsOr2QD_raw {a b : Option ℚ} {q : ℚ} (d : ℚ) (ha : truthyQ a = false)
    (h : b = some q) (hne : q ≠ 0) : jsOrQD (jsOrQ a b) d = q := by
  subst h
  rw [jsOrQ_of_falsy ha]
  exact jsOrQD_of_ne d hne

/-- With both numeric fields falsy, the chain yields the default. -/
theorem jsOr2QD_default {a b : Option ℚ} (d : ℚ) (ha : truthyQ a = false)
    (hb : truthyQ b = false) : jsOrQD (jsOrQ a b) d = d := by
  rw [jsOrQ_of_falsy ha]
  exact jsOrQD_of_falsy d hb

/-! ## Claim C9: the retry wrapper -/

/-- C9 (counterexample): with `tries = 3`, `baseDelay = 10` and an
always-failing `fn`, the slept delays are `[10, 20]` (before attempts 2
and 3), not the `[20, 30]` the claim's `baseDelay * k` formula predicts. -/
theorem C9_counterexample :
    (withRetry (fun _ => (Except.error "boom" : Except String Unit)) 3 10).delays = [10, 20] ∧
      ([10, 20] : List ℕ) ≠ [20, 30] := by
  refine ⟨by decide, by decide⟩

/-- C9 (amended): `withRetry(fn, maxAttempts, baseDelay)` returns a
successful attempt's result as soon as one succeeds — if the calls
`0, …, k-1` throw and call `k` (0-indexed, within the allowed attempts)
succeeds, the wrapper returns that call's value after exactly `k + 1`
calls, making no further calls; in particular a first-call success means
one call, no sleep, and an empty successful result is returned, not
retried.  The delay slept before attempt `k` (1-indexed, `k ≥ 2`) is
`baseDelay * (k - 1)` — the first attempt is immediate.  After
`maxAttempts` failed attempts the last error is raised. -/
theorem C9_amended (ε α : Type) :
    (∀ (fn : ℕ → Except ε α) (tries base : ℕ) (efn : ℕ → ε) (a : α) (k : ℕ), k < tries →
      (∀ i, i < k → fn i = Except.error (efn i)) → fn k = Except.ok a →
      withRetry fn tries base =
        ⟨.ok a, (List.range k).map (fun j => base * (j + 1)), k + 1⟩) ∧
    (∀ (fn : ℕ → Except ε α) (tries base : ℕ) (a : α), 1 ≤ tries → fn 0 = Except.ok a →
      withRetry fn tries base = ⟨.ok a, [], 1⟩) ∧
    (∀ (fn : ℕ → Except ε α) (tries base : ℕ),
      (withRetry fn tries base).delays =
        (List.range ((withRetry fn tries base).calls - 1)).map (fun k => base * (k + 1))) ∧
    (∀ (fn : ℕ → Except ε α) (tries base : ℕ) (efn : ℕ → ε), 1 ≤ tries →
      (∀ i, i < tries → fn i = Except.error (efn i)) →
      (withRetry fn tries base).result = .err (efn (tries - 1))) := by
  refine ⟨?_, ?_, ?_, ?_⟩
  · intro fn tries base efn a k hk hfail hok
    rw [withRetry, withRetryGo_success_stop fn base efn a k tries 0 hk
      (fun j hj => by simpa using hfail j hj) (by simpa using hok)]
    congr 1
    apply List.map_congr_left
    intro j _
    congr 1
    omega
  · intro fn tries base a htries hfn
    cases tries with
    | zero => omega
    | succ n => simp [withRetry, withRetryGo, hfn]
  · intro fn tries base
    rw [withRetry, withRetryGo_delays]
    apply List.map_congr_left
    intro k _
    congr 1
    omega
  · intro fn tries base efn htries hall
    have h := withRetryGo_all_fail fn base efn tries 0 htries
      (fun j hj => by simpa using hall j hj)
    simpa [withRetry] using h

/-- C9 (witness): an empty successful first attempt is returned untouched
after one call and no sleeping; a first-call failure followed by a
successful second call stops the loop and returns the second call's
value after one sleep of `baseDelay`; and two failing attempts raise the
last error. -/
theorem C9_witness :
    withRetry (fun _ => (Except.ok ([] : List ℕ) : Except String (List ℕ))) 3 10 =
        ⟨.ok [], [], 1⟩ ∧
      withRetry (fun i => if i = 0 then (Except.error "beat" : Except String ℕ)
          else Except.ok 42) 3 10 = ⟨.ok 42, [10], 2⟩ ∧
      (withRetry (fun _ => (Except.error "boom" : Except String Unit)) 2 5).result =
        .err "boom" := by
  refine ⟨(C9_amended String (List ℕ)).2.1 _ 3 10 [] (by omega) rfl, ?_, ?_⟩
  · have h := (C9_amended String ℕ).1
      (fun i => if i = 0 then Except.error "beat" else Except.ok 42) 3 10 (fun _ => "beat") 42 1
      (by omega)
      (fun i hi => by
        have hi0 : i = 0 := by omega
        subst hi0
        rfl)
      rfl
    simpa using h
  · have h := (C9_amended String Unit).2.2.2 (fun _ => Except.error "boom") 2 5 (fun _ => "boom")
      (by omega) (fun i _ => rfl)
    simpa using h

/-! ## Claim C6: confidence provenance -/

/-- C6 (counterexample): the cleaning step substitutes `0.5` for a reply
confidence of `0` (the claim's clamp would give `0.1`), and clamps a
reply confidence of `2` down to `1` — i.e. below the reply value. -/
theorem C6_counterexample :
    cleanConfidence (some 2) = 1 ∧ (1 : ℚ) < 2 ∧
      cleanConfidence (some 0) = 1 / 2 ∧ (1 / 2 : ℚ) ≠ 1 / 10 := by
  refine ⟨?_, by norm_num, ?_, by norm_num⟩
  · norm_num [cleanConfidence, jsMax, jsMin, jsOrQD]
  · norm_num [cleanConfidence, jsMax, jsMin, jsOrQD]

/-- C6 (amended): a successfully AI-normalised record's confidence equals
the reply's confidence clamped to `[0.1, 1.0]`, with `0.5` substituted
when the reply confidence is absent **or zero**; it is never forced below
the reply value when that value is at most 1 (a value above 1 is clamped
down to 1); and on the fallback path the record has `aiProcessed = false`
and confidence `0.3 ≤ 0.3`. -/
theorem C6_amended :
    (∀ (rawProperty : RawProp) (data : RawReply),
      confidenceOf (processOneWithAI rawProperty (Except.ok (validateAndCleanData data))) =
        cleanConfidence data.confidence) ∧
    (∀ c : Option ℚ, 1 / 10 ≤ cleanConfidence c ∧ cleanConfidence c ≤ 1) ∧
    cleanConfidence none = 1 / 2 ∧
    (∀ v : ℚ, v ≤ 1 → v ≤ cleanConfidence (some v)) ∧
    (∀ rawProperty : RawProp,
      aiProcessedOf (processOneWithAI rawProperty (Except.error ())) = false ∧
        confidenceOf (processOneWithAI rawProperty (Except.error ())) = 3 / 10) := by
  refine ⟨?_, fun c => ⟨cleanConfidence_lower c, cleanConfidence_upper c⟩, ?_,
    fun v h => le_cleanConfidence_of_le_one h, fun raw => ⟨rfl, rfl⟩⟩
  · intro raw data
    simp only [processOneWithAI, confidenceOf, mergeAI, validateAndCleanData]
    exact jsOrQD_of_ne _ (cleanConfidence_ne_zero data.confidence)
  · norm_num [cleanConfidence, jsMax, jsMin, jsOrQD]

/-- C6 (witness): the amended statement evaluated on a concrete reply with
confidence `3/4` and on the concrete fallback path. -/
theorem C6_witness :
    confidenceOf (processOneWithAI rawDesc (Except.ok (validateAndCleanData replyRaw0))) =
        cleanConfidence (some (3 / 4)) ∧
      (3 / 4 : ℚ) ≤ cleanConfidence (some (3 / 4)) ∧
      aiProcessedOf (processOneWithAI rawDesc (Except.error ())) = false := by
  refine ⟨C6_amended.1 rawDesc replyRaw0, ?_, (C6_amended.2.2.2.2 rawDesc).1⟩
  exact C6_amended.2.2.2.1 (3 / 4) (by norm_num)

/-! ## Claim C7: merge precedence and the source frame -/

/-- C7 (counterexample): a present-but-empty reply field does **not** win
the merge: with `description = ""` present in the reply, the merged
record takes the candidate's raw description, so "every other field takes
the enrichment reply's value, falling back only when the reply field is
absent" is false. -/
theorem C7_counterexample :
    replyEmptyDesc.description = some "" ∧
      (mergeAI rawDesc replyEmptyDesc).description = some "Spacious 2 BHK near the park" ∧
      (some "Spacious 2 BHK near the park" : Option String) ≠ some "" := by
  refine ⟨rfl, by decide, by decide⟩

/-- C7 (amended): the merged record's `source` (name/url/scrapedAt) is
always the original candidate's, never the reply's, and `aiProcessed` is
set; every other field prefers the enrichment reply **when the reply
field is present and truthy** (non-empty string / non-zero number; any
present array), falling back to the candidate's raw field otherwise, and
to the field's literal default when both are falsy. -/
theorem C7_amended :
    ∀ (rawProperty : RawProp) (aiReply : AIReply),
      (mergeAI rawProperty aiReply).source = rawProperty.source ∧
      (mergeAI rawProperty aiReply).aiProcessed = true ∧
      (truthyS aiReply.title = true →
        (mergeAI rawProperty aiReply).title = aiReply.title) ∧
      (truthyS aiReply.title = false →
        (mergeAI rawProperty aiReply).title = rawProperty.title) ∧
      (truthyS aiReply.description = true →
        (mergeAI rawProperty aiReply).description = aiReply.description) ∧
      (truthyS aiReply.description = false →
        (mergeAI rawProperty aiReply).description = rawProperty.description) ∧
      (truthyQ aiReply.price = true →
        (mergeAI rawProperty aiReply).price = aiReply.price) ∧
      (truthyQ aiReply.price = false →
        (mergeAI rawProperty aiReply).price = rawProperty.price) ∧
      (truthyQ aiReply.bhk = true →
        (mergeAI rawProperty aiReply).bhk = aiReply.bhk) ∧
      (truthyQ aiReply.bhk = false →
        (mergeAI rawProperty aiReply).bhk = rawProperty.bhk) ∧
      (∀ s, aiReply.priceType = some s → s ≠ "" →
        (mergeAI rawProperty aiReply).priceType = s) ∧
      (∀ s, truthyS aiReply.priceType = false → rawProperty.priceType = some s → s ≠ "" →
        (mergeAI rawProperty aiReply).priceType = s) ∧
      (truthyS aiReply.priceType = false → truthyS rawProperty.priceType = false →
        (mergeAI rawProperty aiReply).priceType = "sale") ∧
      (∀ s, aiReply.locCity = some s → s ≠ "" →
        (mergeAI rawProperty aiReply).locCity = s) ∧
      (∀ s, truthyS aiReply.locCity = false → rawProperty.locCity = some s → s ≠ "" →
        (mergeAI rawProperty aiReply).locCity = s) ∧
      (truthyS aiReply.locCity = false → truthyS rawProperty.locCity = false →
        (mergeAI rawProperty aiReply).locCity = "Unknown City") ∧
      (∀ s, aiReply.locArea = some s → s ≠ "" →
        (mergeAI rawProperty aiReply).locArea = s) ∧
      (∀ s, truthyS aiReply.locArea = false → rawProperty.locArea = some s → s ≠ "" →
        (mergeAI rawProperty aiReply).locArea = s) ∧
      (truthyS aiReply.locArea = false → truthyS rawProperty.locArea = false →
        (mergeAI rawProperty aiReply).locArea = "") ∧
      (∀ s, aiReply.locFullAddress = some s → s ≠ "" →
        (mergeAI rawProperty aiReply).locFullAddress = s) ∧
      (∀ s, truthyS aiReply.locFullAddress = false → rawProperty.locFullAddress = some s →
        s ≠ "" → (mergeAI rawProperty aiReply).locFullAddress = s) ∧
      (truthyS aiReply.locFullAddress = false → truthyS rawProperty.locFullAddress = false →
        (mergeAI rawProperty aiReply).locFullAddress = "") ∧
      (∀ s, aiReply.propertyType = some s → s ≠ "" →
        (mergeAI rawProperty aiReply).propertyType = s) ∧
      (∀ s, truthyS aiReply.propertyType = false → rawProperty.propertyType = some s → s ≠ "" →
        (mergeAI rawProperty aiReply).propertyType = s) ∧
      (truthyS aiReply.propertyType = false → truthyS rawProperty.propertyType = false →
        (mergeAI rawProperty aiReply).propertyType = "apartment") ∧
      (∀ q, aiReply.areaSize = some q → q ≠ 0 →
        (mergeAI rawProperty aiReply).areaSize = q) ∧
      (∀ q, truthyQ aiReply.areaSize = false → rawProperty.areaSize = some q → q ≠ 0 →
        (mergeAI rawProperty aiReply).areaSize = q) ∧
      (truthyQ aiReply.areaSize = false → truthyQ rawProperty.areaSize = false →
        (mergeAI rawProperty aiReply).areaSize = 0) ∧
      (∀ s, aiReply.areaUnit = some s → s ≠ "" →
        (mergeAI rawProperty aiReply).areaUnit = s) ∧
      (∀ s, truthyS aiReply.areaUnit = false → rawProperty.areaUnit = some s → s ≠ "" →
        (mergeAI rawProperty aiReply).areaUnit = s) ∧
      (truthyS aiReply.areaUnit = false → truthyS rawProperty.areaUnit = false →
        (mergeAI rawProperty aiReply).areaUnit = "sqft") ∧
      (∀ l, aiReply.amenities = some l →
        (mergeAI rawProperty aiReply).amenities = l) ∧
      (∀ l, aiReply.amenities = none → rawProperty.amenities = some l →
        (mergeAI rawProperty aiReply).amenities = l) ∧
      (aiReply.amenities = none → rawProperty.amenities = none →
        (mergeAI rawProperty aiReply).amenities = []) ∧
      (∀ l, aiReply.images = some l →
        (mergeAI rawProperty aiReply).images = l) ∧
      (∀ l, aiReply.images = none → rawProperty.images = some l →
        (mergeAI rawProperty aiReply).images = l) ∧
      (aiReply.images = none → rawProperty.images = none →
        (mergeAI rawProperty aiReply).images = []) ∧
      (∀ s, aiReply.contactPhone = some s → s ≠ "" →
        (mergeAI rawProperty aiReply).contactPhone = s) ∧
      (∀ s, truthyS aiReply.contactPhone = false → rawProperty.contactPhone = some s → s ≠ "" →
        (mergeAI rawProperty aiReply).contactPhone = s) ∧
      (truthyS aiReply.contactPhone = false → truthyS rawProperty.contactPhone = false →
        (mergeAI rawProperty aiReply).contactPhone = "") ∧
      (∀ s, aiReply.contactEmail = some s → s ≠ "" →
        (mergeAI rawProperty aiReply).contactEmail = s) ∧
      (∀ s, truthyS aiReply.contactEmail = false → rawProperty.contactEmail = some s → s ≠ "" →
        (mergeAI rawProperty aiReply).contactEmail = s) ∧
      (truthyS aiReply.contactEmail = false → truthyS rawProperty.contactEmail = false →
        (mergeAI rawProperty aiReply).contactEmail = "") ∧
      (∀ s, aiReply.contactAgent = some s → s ≠ "" →
        (mergeAI rawProperty aiReply).contactAgent = s) ∧
      (∀ s, truthyS aiReply.contactAgent = false → rawProperty.contactAgent = some s → s ≠ "" →
        (mergeAI rawProperty aiReply).contactAgent = s) ∧
      (truthyS aiReply.contactAgent = false → truthyS rawProperty.contactAgent = false →
        (mergeAI rawProperty aiReply).contactAgent = "") := by
  intro rawProperty aiReply
  refine ⟨rfl, rfl,
    fun h => jsOrS_of_truthy h, fun h => jsOrS_of_falsy h,
    fun h => jsOrS_of_truthy h, fun h => jsOrS_of_falsy h,
    fun h => jsOrQ_of_truthy h, fun h => jsOrQ_of_falsy h,
    fun h => jsOrQ_of_truthy h, fun h => jsOrQ_of_falsy h,
    fun s h hne => jsOr2SD_reply _ h hne,
    fun s ha h hne => jsOr2SD_raw _ ha h hne,
    fun ha hb => jsOr2SD_default _ ha hb,
    fun s h hne => jsOr2SD_reply _ h hne,
    fun s ha h hne => jsOr2SD_raw _ ha h hne,
    fun ha hb => jsOr2SD_default _ ha hb,
    fun s h hne => jsOr2SD_reply _ h hne,
    fun s ha h hne => jsOr2SD_raw _ ha h hne,
    fun ha hb => jsOr2SD_default _ ha hb,
    fun s h hne => jsOr2SD_reply _ h hne,
    fun s ha h hne => jsOr2SD_raw _ ha h hne,
    fun ha hb => jsOr2SD_default _ ha hb,
    fun s h hne => jsOr2SD_reply _ h hne,
    fun s ha h hne => jsOr2SD_raw _ ha h hne,
    fun ha hb => jsOr2SD_default _ ha hb,
    fun q h hne => jsOr2QD_reply _ h hne,
    fun q ha h hne => jsOr2QD_raw _ ha h hne,
    fun ha hb => jsOr2QD_default _ ha hb,
    fun s h hne => jsOr2SD_reply _ h hne,
    fun s ha h hne => jsOr2SD_raw _ ha h hne,
    fun ha hb => jsOr2SD_default _ ha hb,
    fun l h => by simp only [mergeAI, jsOrL, h],
    fun l h1 h2 => by simp only [mergeAI, jsOrL, h1, h2],
    fun h1 h2 => by simp only [mergeAI, jsOrL, h1, h2],
    fun l h => by simp only [mergeAI, jsOrL, h],
    fun l h1 h2 => by simp only [mergeAI, jsOrL, h1, h2],
    fun h1 h2 => by simp only [mergeAI, jsOrL, h1, h2],
    fun s h hne => jsOr2SD_reply _ h hne,
    fun s ha h hne => jsOr2SD_raw _ ha h hne,
    fun ha hb => jsOr2SD_default _ ha hb,
    fun s h hne => jsOr2SD_reply _ h hne,
    fun s ha h hne => jsOr2SD_raw _ ha h hne,
    fun ha hb => jsOr2SD_default _ ha hb,
    fun s h hne => jsOr2SD_reply _ h hne,
    fun s ha h hne => jsOr2SD_raw _ ha h hne,
    fun ha hb => jsOr2SD_default _ ha hb⟩

/-- C7 (witness): the amended precedence evaluated at a concrete candidate
and reply: the source frame is the candidate's, the truthy reply title and
priceType win, and the falsy reply contact phone falls back. -/
theorem C7_witness :
    (mergeAI rawDesc replyFull).source = rawDesc.source ∧
      (mergeAI rawDesc replyFull).title = replyFull.title ∧
      (mergeAI rawDesc replyFull).priceType = "rent" := by
  have h := C7_amended rawDesc replyFull
  exact ⟨h.1, h.2.2.1 (by decide), h.2.2.2.2.2.2.2.2.2.2.1 "rent" rfl (by decide)⟩

/-! ## Claim C1: the duplicate fingerprint -/

/-- C1 (counterexample): the fingerprint is **not** the
`(source.name, source.url)` pair.  With a store holding only an OLX
record at a url, a valid Housing.com record at the same url — whose
(name, url) pair is absent from the store — is classified duplicate, not
created. -/
theorem C1_counterexample :
    existsByNameAndUrl "Housing.com" "https://example.com/p1" [recB] = false ∧
      validateProperty trueCtx recA = true ∧
      (bulkRun trueCtx [recA] [recB]).outcomes = [BulkOutcome.duplicate] ∧
      (bulkRun trueCtx [recA] [recB]).stats.created = 0 ∧
      (bulkRun trueCtx [recA] [recB]).stats.duplicates = 1 := by
  refine ⟨by decide, by decide, by decide, by decide, by decide⟩

/-- C1 (amended): the fingerprint is `source.url` alone.  Reconciling a
batch containing a valid record `r` when no record with `r`'s
`source.url` exists in the store classifies `r` as created
(`created = 1`) and persists it; reconciling again any record bearing the
same `source.url` — whatever its `source.name` — classifies it as
duplicate (`duplicates = 1`, `created = 0`) and does not persist a second
copy. -/
theorem C1_amended :
    ∀ (ctx : Ctx) (r : PRecord) (s : PSource) (u : String) (store : List PRecord),
      validateProperty ctx r = true → ctx.createFails r = false → r.source = some s →
      s.url = some u → existsBySourceUrl u store = false →
      ((bulkRun ctx [r] store).outcomes = [BulkOutcome.created] ∧
        (bulkRun ctx [r] store).stats.created = 1 ∧
        (bulkRun ctx [r] store).stats.duplicates = 0 ∧
        (bulkRun ctx [r] store).store = store ++ [r]) ∧
      (∀ (r2 : PRecord) (s2 : PSource), r2.source = some s2 → s2.url = some u →
        (bulkRun ctx [r2] (store ++ [r])).outcomes = [BulkOutcome.duplicate] ∧
        (bulkRun ctx [r2] (store ++ [r])).stats.created = 0 ∧
        (bulkRun ctx [r2] (store ++ [r])).stats.duplicates = 1 ∧
        (bulkRun ctx [r2] (store ++ [r])).store = store ++ [r]) := by
  intro ctx r s u store hval hcf hs hurl hfresh
  have hcheck : existsCheck r store = false := by
    simp [existsCheck, sourceUrlOf, hs, hurl, hfresh]
  have h1 := processOne_of_valid hcheck hval hcf
  constructor
  · simp [bulkRun, bulkGo, h1, isCreated, isDuplicate, isError]
  · intro r2 s2 hs2 hurl2
    have hurlOf : sourceUrlOf r = some u := by simp [sourceUrlOf, hs, hurl]
    have hex : existsCheck r2 (store ++ [r]) = true := by
      have hmem := existsBySourceUrl_append_self store hurlOf
      simp [existsCheck, sourceUrlOf, hs2, hurl2, hmem]
    have h2 := @processOne_of_exists ctx (store ++ [r]) r2 hex
    simp [bulkRun, bulkGo, h2, isCreated, isDuplicate, isError]

/-- C1 (witness): the amended statement evaluated on `recA` against the
empty store, then on `recB` (same url, different name) against the
resulting store. -/
theorem C1_witness :
    (bulkRun trueCtx [recA] []).outcomes = [BulkOutcome.created] ∧
      (bulkRun trueCtx [recB] ([] ++ [recA])).outcomes = [BulkOutcome.duplicate] ∧
      (bulkRun trueCtx [recB] ([] ++ [recA])).store = [] ++ [recA] := by
  have h := C1_amended trueCtx recA srcA "https://example.com/p1" [] (by decide) rfl rfl rfl
    (by decide)
  exact ⟨h.1.1, (h.2 recB srcB rfl rfl).1, (h.2 recB srcB rfl rfl).2.2.2⟩

/-! ## Claim C2: total classification of a batch -/

/-- C2 (counterexample): the empty input list is not reconciled into
stats; `bulkCreateProperties` throws instead of returning
`created + duplicates + errors = total = 0`. -/
theorem C2_counterexample :
    bulkCreateProperties trueCtx [] [] =
      Except.error "Properties data must be a non-empty array" := rfl

/-- C2 (amended): for every **non-empty** input list, batch reconciliation
returns stats; each record is classified into exactly one of created /
duplicate / error — the store existence check runs before schema
validation and validation before persistence — and the stats satisfy
`created + duplicates + errors = total = length of the input`; a failure
while processing one record (validation or persistence) never aborts the
remaining records: there is one outcome per input record regardless.
(The empty list is rejected with an error instead.) -/
theorem C2_amended :
    ∀ (ctx : Ctx) (rs store : List PRecord), rs ≠ [] →
      bulkCreateProperties ctx rs store = Except.ok (bulkRun ctx rs store) ∧
      (bulkRun ctx rs store).stats.created + (bulkRun ctx rs store).stats.duplicates +
          (bulkRun ctx rs store).stats.errors = (bulkRun ctx rs store).stats.total ∧
      (bulkRun ctx rs store).stats.total = rs.length ∧
      (bulkRun ctx rs store).outcomes.length = rs.length ∧
      (∀ (r : PRecord) (st : List PRecord), existsCheck r st = true →
        (processOne ctx st r).1 = BulkOutcome.duplicate) ∧
      (∀ (r : PRecord) (st : List PRecord), existsCheck r st = false →
        validateProperty ctx r = false → (processOne ctx st r).1 = BulkOutcome.error) ∧
      (∀ (r : PRecord) (st : List PRecord), existsCheck r st = false →
        validateProperty ctx r = true → ctx.createFails r = false →
        (processOne ctx st r).1 = BulkOutcome.created) := by
  intro ctx rs store h
  have hp := outcome_partition (bulkGo ctx rs store).1
  have hl := bulkGo_length ctx rs store
  refine ⟨?_, ?_, rfl, ?_, ?_, ?_, ?_⟩
  · cases rs with
    | nil => exact absurd rfl h
    | cons a l => rfl
  · simp only [bulkRun]
    omega
  · simp only [bulkRun]
    exact hl
  · intro r st h1
    simp [processOne_of_exists h1]
  · intro r st h1 h2
    simp [processOne_of_invalid h1 h2]
  · intro r st h1 h2 h3
    simp [processOne_of_valid h1 h2 h3]

/-- C2 (witness): the amended statement evaluated on the singleton batch
`[recA]` against the empty store. -/
theorem C2_witness :
    bulkCreateProperties trueCtx [recA] [] = Except.ok (bulkRun trueCtx [recA] []) ∧
      (bulkRun trueCtx [recA] []).stats.created + (bulkRun trueCtx [recA] []).stats.duplicates +
          (bulkRun trueCtx [recA] []).stats.errors = (bulkRun trueCtx [recA] []).stats.total ∧
      (bulkRun trueCtx [recA] []).stats.total = 1 := by
  have h := C2_amended trueCtx [recA] [] (by simp)
  exact ⟨h.1, h.2.1, by simpa using h.2.2.1⟩

/-! ## Claim C10: the duplicate check reads only the url -/

/-- C10 (counterexample): as stated the claim fails twice.  (i) For the
pair `recNoTitle` (invalid, url `u`, name OLX) then `recA` (valid, url
`u`, name Housing.com), the later-reconciled record is created, not
classified as a duplicate of the earlier (the earlier was never
persisted).  (ii) Changing `source.name` alone does change the
created/duplicate classification: `recA` is created while the renamed
`recBogus = setSourceName recA "Bogus"` is an error, because schema
validation checks the name after the duplicate check. -/
theorem C10_counterexample :
    recNoTitle.source = some srcB ∧ recA.source = some srcA ∧ srcB.url = srcA.url ∧
      srcB.name ≠ srcA.name ∧
      (bulkRun trueCtx [recNoTitle, recA] []).outcomes =
        [BulkOutcome.error, BulkOutcome.created] ∧
      recBogus = setSourceName recA "Bogus" ∧
      (processOne trueCtx [] recA).1 = BulkOutcome.created ∧
      (processOne trueCtx [] recBogus).1 = BulkOutcome.error := by
  refine ⟨rfl, rfl, by decide, by decide, by decide, by decide, by decide, by decide⟩

/-- C10 (amended): duplicate classification depends only on `source.url`:
whether a record is classified duplicate is invariant under renaming its
source, and any record whose url is stored is a duplicate regardless of
validity; for a pair of records with equal `source.url` (any names), the
later one is classified duplicate **provided the earlier one was
persisted** (valid, creation succeeded).  Renaming can still move a
record between created and error, since validation checks `source.name`
after the duplicate check. -/
theorem C10_amended :
    (∀ (ctx : Ctx) (store : List PRecord) (r : PRecord) (n1 n2 : String),
      ((processOne ctx store (setSourceName r n1)).1 = BulkOutcome.duplicate ↔
        (processOne ctx store (setSourceName r n2)).1 = BulkOutcome.duplicate)) ∧
    (∀ (ctx : Ctx) (store : List PRecord) (r : PRecord), existsCheck r store = true →
      (processOne ctx store r).1 = BulkOutcome.duplicate) ∧
    (∀ (ctx : Ctx) (store : List PRecord) (r1 r2 : PRecord) (s1 s2 : PSource) (u : String),
      r1.source = some s1 → s1.url = some u → r2.source = some s2 → s2.url = some u →
      existsCheck r1 store = false → validateProperty ctx r1 = true →
      ctx.createFails r1 = false →
      (bulkRun ctx [r1, r2] store).outcomes = [BulkOutcome.created, BulkOutcome.duplicate]) := by
  refine ⟨?_, ?_, ?_⟩
  · intro ctx store r n1 n2
    rw [processOne_duplicate_iff, processOne_duplicate_iff, existsCheck_setSourceName,
      existsCheck_setSourceName]
  · intro ctx store r h
    simp [processOne_of_exists h]
  · intro ctx store r1 r2 s1 s2 u hs1 hu1 hs2 hu2 hfresh hval hcf
    have h1 := processOne_of_valid hfresh hval hcf
    have hurlOf : sourceUrlOf r1 = some u := by simp [sourceUrlOf, hs1, hu1]
    have hex : existsCheck r2 (store ++ [r1]) = true := by
      have hmem := existsBySourceUrl_append_self store hurlOf
      simp [existsCheck, sourceUrlOf, hs2, hu2, hmem]
    have h2 := @processOne_of_exists ctx (store ++ [r1]) r2 hex
    simp [bulkRun, bulkGo, h1, h2]

/-- C10 (witness): the amended statement evaluated on `recA`/`recB` (equal
url, different names) in one batch, plus a concrete rename-invariance
instance. -/
theorem C10_witness :
    (bulkRun trueCtx [recA, recB] []).outcomes =
        [BulkOutcome.created, BulkOutcome.duplicate] ∧
      ((processOne trueCtx [] (setSourceName recA "Manual")).1 = BulkOutcome.duplicate ↔
        (processOne trueCtx [] (setSourceName recA "Bogus")).1 = BulkOutcome.duplicate) := by
  refine ⟨?_, C10_amended.1 trueCtx [] recA "Manual" "Bogus"⟩
  exact C10_amended.2.2 trueCtx [] recA recB srcA srcB "https://example.com/p1" rfl rfl rfl rfl
    (by decide) (by decide) rfl

/-! ## Claim C3: partial-failure tolerance of scrapeAll -/

/-- When the combined candidate list is non-empty, `scrapeAll` returns a
response whose stats come from the bulk create and whose error list is
the source errors followed by the per-record save errors. -/
theorem scrapeAll_spec (ctx : Ctx) (city : String) (o1 o2 o3 : Except String (List PRecord))
    (store : List PRecord)
    (h : settledProps o1 ++ settledProps o2 ++ settledProps o3 ≠ []) :
    scrapeAll ctx city o1 o2 o3 store = Except.ok (scrapeAllRun ctx city o1 o2 o3 store) ∧
      (scrapeAllRun ctx city o1 o2 o3 store).1.success = true ∧
      (scrapeAllRun ctx city o1 o2 o3 store).1.stats.scraped =
        (settledProps o1 ++ settledProps o2 ++ settledProps o3).length ∧
      (scrapeAllRun ctx city o1 o2 o3 store).1.stats.saved +
          (scrapeAllRun ctx city o1 o2 o3 store).1.stats.duplicates +
          (scrapeAllRun ctx city o1 o2 o3 store).1.stats.errors =
        (scrapeAllRun ctx city o1 o2 o3 store).1.stats.scraped ∧
      (scrapeAllRun ctx city o1 o2 o3 store).1.errors =
        settledErr "Housing.com" o1 ++ settledErr "OLX" o2 ++ settledErr "MagicBricks" o3 ++
          (errorRecsOf (settledProps o1 ++ settledProps o2 ++ settledProps o3)
            (bulkRun ctx (settledProps o1 ++ settledProps o2 ++ settledProps o3)
              store).outcomes).map ErrEntry.recErr := by
  have hbulk :
      bulkCreateProperties ctx (settledProps o1 ++ settledProps o2 ++ settledProps o3) store =
        Except.ok (bulkRun ctx (settledProps o1 ++ settledProps o2 ++ settledProps o3) store) := by
    have hne : (settledProps o1 ++ settledProps o2 ++ settledProps o3).isEmpty = false := by
      cases hl : settledProps o1 ++ settledProps o2 ++ settledProps o3 with
      | nil => exact absurd hl h
      | cons a l => rfl
    unfold bulkCreateProperties
    rw [hne]
    rfl
  refine ⟨?_, rfl, rfl, ?_, rfl⟩
  · simp only [scrapeAll, scrapeAllRun]
    rw [hbulk]
  · have hp := outcome_partition
      (bulkGo ctx (settledProps o1 ++ settledProps o2 ++ settledProps o3) store).1
    have hl := bulkGo_length ctx (settledProps o1 ++ settledProps o2 ++ settledProps o3) store
    simp only [scrapeAllRun, bulkRun]
    omega

/-- C3 (counterexample): `scrapeAll` **can** propagate a thrown exception:
when all three pipelines reject, the combined candidate list is empty,
the bulk create throws, and the surrounding catch re-throws. -/
theorem C3_counterexample :
    scrapeAll trueCtx "Mumbai" (Except.error "x") (Except.error "y") (Except.error "z") [] =
      Except.error "Failed to scrape all sources: Properties data must be a non-empty array" :=
  rfl

/-- C3 (amended): if one of the three per-source pipelines rejects while
the others fulfil with at least one record between them, `scrapeAll`
still returns a batch result: the fulfilled records are reconciled
(`saved + duplicates + errors = scraped`), and exactly one error entry
names the failed source.  `scrapeAll` does **not** throw as long as the
combined fulfilled candidate list is non-empty; when it is empty (e.g.
all three pipelines reject), the rejected empty batch makes `scrapeAll`
itself throw. -/
theorem C3_amended :
    (∀ (ctx : Ctx) (city : String) (store : List PRecord) (e : String)
        (l2 l3 : List PRecord), l2 ++ l3 ≠ [] →
      ∃ (resp : ScrapeResp) (store' : List PRecord),
        scrapeAll ctx city (Except.error e) (Except.ok l2) (Except.ok l3) store =
            Except.ok (resp, store') ∧
          srcErrSources resp.errors = ["Housing.com"] ∧
          resp.stats.scraped = (l2 ++ l3).length ∧
          resp.stats.saved + resp.stats.duplicates + resp.stats.errors = resp.stats.scraped ∧
          resp.success = true) ∧
    (∀ (ctx : Ctx) (city : String) (store : List PRecord) (e : String)
        (l1 l3 : List PRecord), l1 ++ l3 ≠ [] →
      ∃ (resp : ScrapeResp) (store' : List PRecord),
        scrapeAll ctx city (Except.ok l1) (Except.error e) (Except.ok l3) store =
            Except.ok (resp, store') ∧
          srcErrSources resp.errors = ["OLX"] ∧
          resp.stats.saved + resp.stats.duplicates + resp.stats.errors = resp.stats.scraped) ∧
    (∀ (ctx : Ctx) (city : String) (store : List PRecord) (e : String)
        (l1 l2 : List PRecord), l1 ++ l2 ≠ [] →
      ∃ (resp : ScrapeResp) (store' : List PRecord),
        scrapeAll ctx city (Except.ok l1) (Except.ok l2) (Except.error e) store =
            Except.ok (resp, store') ∧
          srcErrSources resp.errors = ["MagicBricks"] ∧
          resp.stats.saved + resp.stats.duplicates + resp.stats.errors = resp.stats.scraped) ∧
    (∀ (ctx : Ctx) (city : String) (store : List PRecord)
        (o1 o2 o3 : Except String (List PRecord)),
      settledProps o1 ++ settledProps o2 ++ settledProps o3 ≠ [] →
      ∃ (resp : ScrapeResp) (store' : List PRecord),
        scrapeAll ctx city o1 o2 o3 store = Except.ok (resp, store')) := by
  refine ⟨?_, ?_, ?_, ?_⟩
  · intro ctx city store e l2 l3 hne
    obtain ⟨hok, hsucc, hscraped, hsum, herr⟩ :=
      scrapeAll_spec ctx city (Except.error e) (Except.ok l2) (Except.ok l3) store
        (by simpa [settledProps] using hne)
    refine ⟨_, _, hok, ?_, ?_, hsum, hsucc⟩
    · simp [srcErrSources_append, srcErrSources_map_recErr, srcErrSources, settledErr,
        List.filterMap]
    · simp [settledProps]
  · intro ctx city store e l1 l3 hne
    obtain ⟨hok, hsucc, hscraped, hsum, herr⟩ :=
      scrapeAll_spec ctx city (Except.ok l1) (Except.error e) (Except.ok l3) store
        (by simpa [settledProps] using hne)
    refine ⟨_, _, hok, ?_, hsum⟩
    simp [srcErrSources_append, srcErrSources_map_recErr, srcErrSources, settledErr,
      List.filterMap]
  · intro ctx city store e l1 l2 hne
    obtain ⟨hok, hsucc, hscraped, hsum, herr⟩ :=
      scrapeAll_spec ctx city (Except.ok l1) (Except.ok l2) (Except.error e) store
        (by simpa [settledProps] using hne)
    refine ⟨_, _, hok, ?_, hsum⟩
    simp [srcErrSources_append, srcErrSources_map_recErr, srcErrSources, settledErr,
      List.filterMap]
  · intro ctx city store o1 o2 o3 hne
    obtain ⟨hok, _⟩ := scrapeAll_spec ctx city o1 o2 o3 store hne
    exact ⟨_, _, hok⟩

/-- C3 (witness): the amended statement evaluated with a concrete failing
Housing.com pipeline and one real record from OLX. -/
theorem C3_witness :
    ∃ (resp : ScrapeResp) (store' : List PRecord),
      scrapeAll trueCtx "Mumbai" (Except.error "net down") (Except.ok [recA]) (Except.ok [])
          [] = Except.ok (resp, store') ∧
        srcErrSources resp.errors = ["Housing.com"] ∧
        resp.stats.scraped = 1 := by
  obtain ⟨resp, store', hok, hsrc, hscraped, _, _⟩ :=
    C3_amended.1 trueCtx "Mumbai" [] "net down" [recA] [] (by simp)
  exact ⟨resp, store', hok, hsrc, by simpa using hscraped⟩

/-! ## Claim C8: fallback completeness -/

/-- C8: for every source and limit, when real extraction yields zero
candidates or throws, the produced candidate list is exactly `limit`
synthetic records — never fewer. -/
theorem C8_theorem :
    (∀ (city : String) (limit : ℕ) (extraction : Except String (List PRecord))
        (draws : ℕ → HousingDraw),
      (extraction = Except.ok [] ∨ ∃ msg, extraction = Except.error msg) →
      (scrapeHousingCom city limit extraction draws).length = limit) ∧
    (∀ (city : String) (limit : ℕ) (extraction : Except String (List PRecord))
        (draws : ℕ → OLXDraw),
      (extraction = Except.ok [] ∨ ∃ msg, extraction = Except.error msg) →
      (scrapeOLX city limit extraction draws).length = limit) ∧
    (∀ (city : String) (limit : ℕ) (extraction : Except String (List PRecord))
        (draws : ℕ → MagicBricksDraw),
      (extraction = Except.ok [] ∨ ∃ msg, extraction = Except.error msg) →
      (scrapeMagicBricks city limit extraction draws).length = limit) := by
  refine ⟨?_, ?_, ?_⟩ <;>
    · intro city limit extraction draws h
      rcases h with h | ⟨msg, h⟩ <;> subst h <;>
        simp [scrapeHousingCom, scrapeOLX, scrapeMagicBricks,
          generateHousingFallbackData_length, generateOLXFallbackData_length,
          generateMagicBricksFallbackData_length]

/-- C8 (witness): the fallback completeness evaluated at concrete limits,
both for an empty extraction and for a thrown extraction. -/
theorem C8_witness :
    (scrapeHousingCom "Mumbai" 3 (Except.ok []) (fun _ => defaultHousingDraw)).length = 3 ∧
      (scrapeOLX "Mumbai" 2 (Except.error "timeout") (fun _ => defaultOLXDraw)).length = 2 ∧
      (scrapeMagicBricks "Mumbai" 4 (Except.ok [])
        (fun _ => defaultMagicBricksDraw)).length = 4 := by
  refine ⟨?_, ?_, ?_⟩
  · exact C8_theorem.1 "Mumbai" 3 (Except.ok []) (fun _ => defaultHousingDraw) (Or.inl rfl)
  · exact C8_theorem.2.1 "Mumbai" 2 (Except.error "timeout") (fun _ => defaultOLXDraw)
      (Or.inr ⟨"timeout", rfl⟩)
  · exact C8_theorem.2.2 "Mumbai" 4 (Except.ok []) (fun _ => defaultMagicBricksDraw)
      (Or.inl rfl)

end PropAgg
